import Mathlib

/-
Verification development for the easyeda2kicad converter.

Shallow embedding conventions:
* Rust f32 values are modelled as exact rationals (ℚ).  Every claim settled
  here depends only on the branching structure, sign tests and exact
  equalities of the code, which agree with the f32 semantics on the
  finite decimal inputs involved.
* Rust strings are modelled as Lean String / List Char; all splitting
  helpers are re-implemented structurally over List Char so that concrete
  inputs evaluate inside the kernel.
* Fallible Rust code (Result) is modelled with Except; a potential panic
  (the usize underflow in convert_3d_model) is modelled with Option, where
  none means the panic.
-/

/-- Unicode White_Space test, modelling Rust char::is_whitespace (used by
str::trim and str::split_whitespace). -/
def isRustWhitespace (c : Char) : Bool :=
  c = ' ' || c = '\t' || c = '\n' || c = '\r' ||
  c.toNat = 0x0B || c.toNat = 0x0C || c.toNat = 0x85 || c.toNat = 0xA0 ||
  c.toNat = 0x1680 || (0x2000 ≤ c.toNat && c.toNat ≤ 0x200A) ||
  c.toNat = 0x2028 || c.toNat = 0x2029 || c.toNat = 0x202F ||
  c.toNat = 0x205F || c.toNat = 0x3000

/-- Accumulator-based splitting at a separator character (Rust str::split(c)). -/
def splitOnCharAux (c : Char) : List Char → List Char → List (List Char)
  | [], acc => [acc.reverse]
  | x :: xs, acc =>
    if x = c then acc.reverse :: splitOnCharAux c xs []
    else splitOnCharAux c xs (x :: acc)

/-- Split a character list at every occurrence of the separator character,
keeping empty pieces, exactly like Rust str::split(char). -/
def splitOnChar (c : Char) (l : List Char) : List (List Char) :=
  splitOnCharAux c l []

/-- Accumulator-based splitting at a two-character separator (Rust
str::split("^^")), scanning left to right without overlap. -/
def splitOnPairAux (a b : Char) : List Char → List Char → List (List Char)
  | [], acc => [acc.reverse]
  | [x], acc => [(x :: acc).reverse]
  | x :: y :: xs, acc =>
    if x = a ∧ y = b then acc.reverse :: splitOnPairAux a b xs []
    else splitOnPairAux a b (y :: xs) (x :: acc)

/-- Split at every non-overlapping occurrence of the two-character
separator, keeping empty pieces. -/
def splitOnPair (a b : Char) (l : List Char) : List (List Char) :=
  splitOnPairAux a b l []

/-- Accumulator-based splitting at every character satisfying a predicate. -/
def splitOnPredAux (p : Char → Bool) : List Char → List Char → List (List Char)
  | [], acc => [acc.reverse]
  | x :: xs, acc =>
    if p x then acc.reverse :: splitOnPredAux p xs []
    else splitOnPredAux p xs (x :: acc)

/-- Rust str::split_whitespace: split at Unicode whitespace and drop the
empty pieces. -/
def splitWhitespace (l : List Char) : List (List Char) :=
  (splitOnPredAux isRustWhitespace l []).filter (fun w => ¬ w.isEmpty)

/-- Substring test: does the pattern occur contiguously in the list?
Models Rust str::contains(&str). -/
def containsSeq (pat : List Char) (l : List Char) : Bool :=
  l.tails.any (fun t => pat.isPrefixOf t)

/-- Drop one trailing carriage return, as Rust str::lines does on every
newline-terminated segment. -/
def stripCR (l : List Char) : List Char :=
  if l.getLast? = some '\r' then l.dropLast else l

/-- Finish the line splitting of Rust str::lines: every piece except the
last was newline-terminated and gets a trailing CR stripped; a final empty
piece (input ended with a newline) produces no line. -/
def rustLinesAux : List (List Char) → List (List Char)
  | [] => []
  | [last] => if last.isEmpty then [] else [last]
  | x :: y :: xs => stripCR x :: rustLinesAux (y :: xs)

/-- Rust str::lines over a character list. -/
def rustLines (l : List Char) : List (List Char) :=
  rustLinesAux (splitOnChar '\n' l)

/-- First index of a character, splitting the list there (Rust
str::split_once). -/
def splitOnceChar (c : Char) : List Char → Option (List Char × List Char)
  | [] => none
  | x :: xs =>
    if x = c then some ([], xs)
    else (splitOnceChar c xs).map (fun pr => (x :: pr.1, pr.2))

/-- Numeric value of a decimal digit character, none for anything else. -/
def digitVal (c : Char) : Option Nat :=
  if '0' ≤ c ∧ c ≤ '9' then some (c.toNat - 48) else none

/-- Decimal reading of a digit run; fails on the first non-digit. -/
def natOfDigits : List Char → Nat → Option Nat
  | [], acc => some acc
  | c :: cs, acc =>
    match digitVal c with
    | some d => natOfDigits cs (acc * 10 + d)
    | none => none

/-- Decimal value of a list of characters already known to be digits
(non-digits contribute their offset code, never reached on checked input). -/
def digitsToNat (l : List Char) : Nat :=
  l.foldl (fun a c => a * 10 + (c.toNat - 48)) 0

/-- Decidable digit test used by the float parser. -/
def isDigitChar (c : Char) : Bool := '0' ≤ c && c ≤ '9'

/-- Rust usize::from_str (on a 64-bit target): an optional leading plus
sign, then one or more decimal digits, rejecting overflow past 2^64.
A leading minus sign is an error for an unsigned integer. -/
def parseUsize (l : List Char) : Option Nat :=
  let body := match l with
    | '+' :: r => r
    | _ => l
  if body.isEmpty then none
  else
    (natOfDigits body 0).bind (fun n => if n < 2 ^ 64 then some n else none)

/-- Rust i32::from_str: optional sign, one or more decimal digits, result
within the i32 range. -/
def parseI32 (l : List Char) : Option Int :=
  let (sgn, body) : Int × List Char := match l with
    | '+' :: r => (1, r)
    | '-' :: r => (-1, r)
    | _ => (1, l)
  if body.isEmpty then none
  else
    (natOfDigits body 0).bind (fun n =>
      let v : Int := sgn * n
      if -(2 ^ 31) ≤ v ∧ v < 2 ^ 31 then some v else none)

/-- Decomposed pieces of a decimal float literal. -/
structure F32Parts where
  neg : Bool
  intDigs : List Char
  fracDigs : List Char
  expNeg : Bool
  expDigs : List Char
  deriving DecidableEq

/-- Purely textual decomposition of a decimal float literal: sign,
integer digits, fraction digits and exponent.  none when the text is not
a decimal literal with at least one mantissa digit. -/
def parseF32Parts (l : List Char) : Option F32Parts :=
  let (neg, l1) : Bool × List Char :=
    match l with
    | c :: r => if c = '+' then (false, r) else if c = '-' then (true, r) else (false, l)
    | [] => (false, l)
  let intDigs := l1.takeWhile isDigitChar
  let rest1 := l1.dropWhile isDigitChar
  let (fracDigs, rest2) : List Char × List Char :=
    match rest1 with
    | c :: r =>
      if c = '.' then (r.takeWhile isDigitChar, r.dropWhile isDigitChar) else ([], rest1)
    | [] => ([], rest1)
  if intDigs.isEmpty ∧ fracDigs.isEmpty then none
  else
    match rest2 with
    | [] => some { neg := neg, intDigs := intDigs, fracDigs := fracDigs,
                   expNeg := false, expDigs := [] }
    | c :: r =>
      if c = 'e' ∨ c = 'E' then
        let (eneg, r2) : Bool × List Char :=
          match r with
          | c2 :: rr => if c2 = '+' then (false, rr)
              else if c2 = '-' then (true, rr) else (false, r)
          | [] => (false, r)
        if r2.isEmpty ∨ ¬ r2.all isDigitChar then none
        else some { neg := neg, intDigs := intDigs, fracDigs := fracDigs,
                    expNeg := eneg, expDigs := r2 }
      else none

/-- Exact rational value of a decomposed decimal literal. -/
def ratOfF32Parts (p : F32Parts) : ℚ :=
  let sgn : ℚ := if p.neg then -1 else 1
  let mant : ℚ :=
    (digitsToNat p.intDigs : ℚ) + (digitsToNat p.fracDigs : ℚ) / 10 ^ p.fracDigs.length
  let e := digitsToNat p.expDigs
  if p.expNeg then sgn * mant / 10 ^ e else sgn * mant * 10 ^ e

/-- Rust f32::from_str restricted to finite decimal literals: optional
sign, a mantissa containing at least one digit (forms like 10, 2.5,
3. and .5 all accepted), and an optional decimal exponent.  The special
forms inf / infinity / NaN have no rational counterpart and are treated as
unparsable; no payload field settled by a claim uses them.  The value is
returned exactly instead of rounded to binary, which preserves every sign
test and equality-with-zero test the converter performs. -/
def parseF32 (l : List Char) : Option ℚ :=
  (parseF32Parts l).map ratOfF32Parts

/-- Rust str::trim(...).is_empty(): true exactly when every character is
Unicode whitespace (trimming both ends of such a string leaves nothing). -/
def trimIsEmpty (s : String) : Bool :=
  s.toList.all isRustWhitespace

/-- Loosely-typed JSON value tree, modelling serde_json::Value as handed to
the importers. -/
inductive Json where
  | null
  | bool (b : Bool)
  | num (q : ℚ)
  | str (s : String)
  | arr (elems : List Json)
  | obj (members : List (String × Json))

/-- The serde_json index operation data[key]: member lookup on an object,
Value::Null for a missing member or a non-object. -/
def Json.index (j : Json) (key : String) : Json :=
  match j with
  | Json.obj ms => ((ms.find? (fun m => m.1 == key)).map Prod.snd).getD Json.null
  | _ => Json.null

/-- Value::as_str. -/
def Json.as_str : Json → Option String
  | Json.str s => some s
  | _ => none

/-- Value::as_array. -/
def Json.as_array : Json → Option (List Json)
  | Json.arr l => some l
  | _ => none

/-- Double-quote character (written via its code point to keep string
scanning simple). -/
def quoteChar : Char := Char.ofNat 34

/-- Backslash character. -/
def backslashChar : Char := Char.ofNat 92

/-- Left brace character. -/
def lbraceChar : Char := Char.ofNat 123

/-- Right brace character. -/
def rbraceChar : Char := Char.ofNat 125

/-- Skip JSON insignificant whitespace. -/
def jsonSkipWs : List Char → List Char
  | [] => []
  | c :: cs =>
    if c = ' ' ∨ c = '\t' ∨ c = '\n' ∨ c = '\r' then jsonSkipWs cs
    else c :: cs

/-- Hexadecimal digit value. -/
def hexVal (c : Char) : Option Nat :=
  if '0' ≤ c ∧ c ≤ '9' then some (c.toNat - 48)
  else if 'a' ≤ c ∧ c ≤ 'f' then some (c.toNat - 87)
  else if 'A' ≤ c ∧ c ≤ 'F' then some (c.toNat - 55)
  else none

/-- Body of a JSON string literal after the opening quote: handles the
escape sequences of RFC 8259 including surrogate pairs, rejects raw
control characters and lone surrogates, and returns the decoded
characters together with the input after the closing quote. -/
def parseJStringBody : Nat → List Char → List Char → Option (List Char × List Char)
  | 0, _, _ => none
  | fuel + 1, cs, acc =>
    match cs with
    | [] => none
    | c :: rest =>
      if c = quoteChar then some (acc.reverse, rest)
      else if c = backslashChar then
        match rest with
        | [] => none
        | e :: rest2 =>
          if e = quoteChar then parseJStringBody fuel rest2 (quoteChar :: acc)
          else if e = backslashChar then parseJStringBody fuel rest2 (backslashChar :: acc)
          else if e = '/' then parseJStringBody fuel rest2 ('/' :: acc)
          else if e = 'b' then parseJStringBody fuel rest2 (Char.ofNat 8 :: acc)
          else if e = 'f' then parseJStringBody fuel rest2 (Char.ofNat 12 :: acc)
          else if e = 'n' then parseJStringBody fuel rest2 ('\n' :: acc)
          else if e = 'r' then parseJStringBody fuel rest2 ('\r' :: acc)
          else if e = 't' then parseJStringBody fuel rest2 ('\t' :: acc)
          else if e = 'u' then
            match rest2 with
            | h1 :: h2 :: h3 :: h4 :: rest3 =>
              match hexVal h1, hexVal h2, hexVal h3, hexVal h4 with
              | some a, some b, some c2, some d =>
                let v := ((a * 16 + b) * 16 + c2) * 16 + d
                if 0xD800 ≤ v ∧ v ≤ 0xDBFF then
                  match rest3 with
                  | e2 :: u2 :: g1 :: g2 :: g3 :: g4 :: rest4 =>
                    if e2 = backslashChar ∧ u2 = 'u' then
                      match hexVal g1, hexVal g2, hexVal g3, hexVal g4 with
                      | some a2, some b2, some c3, some d2 =>
                        let w := ((a2 * 16 + b2) * 16 + c3) * 16 + d2
                        if 0xDC00 ≤ w ∧ w ≤ 0xDFFF then
                          parseJStringBody fuel rest4
                            (Char.ofNat (0x10000 + (v - 0xD800) * 0x400 + (w - 0xDC00)) :: acc)
                        else none
                      | _, _, _, _ => none
                    else none
                  | _ => none
                else if 0xDC00 ≤ v ∧ v ≤ 0xDFFF then none
                else parseJStringBody fuel rest3 (Char.ofNat v :: acc)
              | _, _, _, _ => none
            | _ => none
          else none
      else if c.toNat < 0x20 then none
      else parseJStringBody fuel rest (c :: acc)

/-- JSON number literal: optional minus, integer digits, optional fraction
and exponent, returned as an exact rational with the unconsumed input. -/
def parseJNumber (cs : List Char) : Option (ℚ × List Char) :=
  let (sgn, l1) : ℚ × List Char := match cs with
    | '-' :: r => (-1, r)
    | _ => (1, cs)
  match l1 with
  | [] => none
  | c :: _ =>
    if ¬ isDigitChar c then none
    else
      let intDigs := l1.takeWhile isDigitChar
      let rest1 := l1.dropWhile isDigitChar
      let (fracDigs, rest2) : List Char × List Char := match rest1 with
        | '.' :: r => (r.takeWhile isDigitChar, r.dropWhile isDigitChar)
        | _ => ([], rest1)
      if rest1 ≠ rest2 ∧ fracDigs.isEmpty then none
      else
        let mant : ℚ :=
          (digitsToNat intDigs : ℚ) + (digitsToNat fracDigs : ℚ) / 10 ^ fracDigs.length
        match rest2 with
        | 'e' :: r | 'E' :: r =>
          let (eneg, r2) : Bool × List Char := match r with
            | '+' :: rr => (false, rr)
            | '-' :: rr => (true, rr)
            | _ => (false, r)
          if r2.isEmpty then none
          else
            match natOfDigits (r2.takeWhile isDigitChar) 0 with
            | none => none
            | some e =>
              if (r2.takeWhile isDigitChar).isEmpty then none
              else some ((if eneg then sgn * mant / 10 ^ e else sgn * mant * 10 ^ e),
                         r2.dropWhile isDigitChar)
        | _ => some (sgn * mant, rest2)

/-- Task tag of the JSON parser: one value, an array or object body
right after its opening bracket, or the element/member loop with its
accumulator. -/
inductive JTask where
  | val
  | arrBody
  | arrElems (acc : List Json)
  | objBody
  | objMembers (acc : List (String × Json))

/-- Recursive-descent JSON parser, fuel-indexed so that the recursion is
structural: one step parses a value, an array body, an object body, or
one element/member of the enclosing loop, handing the remaining input
back. -/
def parseJ : Nat → JTask → List Char → Option (Json × List Char)
  | 0, _, _ => none
  | fuel + 1, task, cs =>
    match task with
    | JTask.val =>
      let cs1 := jsonSkipWs cs
      match cs1 with
      | [] => none
      | c :: rest =>
        if c = quoteChar then
          (parseJStringBody (rest.length + 1) rest []).map
            (fun pr => (Json.str (String.mk pr.1), pr.2))
        else if c = lbraceChar then parseJ fuel JTask.objBody rest
        else if c = '[' then parseJ fuel JTask.arrBody rest
        else if c = 't' then
          if rest.take 3 = (['r', 'u', 'e']) then some (Json.bool true, rest.drop 3)
          else none
        else if c = 'f' then
          if rest.take 4 = (['a', 'l', 's', 'e']) then some (Json.bool false, rest.drop 4)
          else none
        else if c = 'n' then
          if rest.take 3 = (['u', 'l', 'l']) then some (Json.null, rest.drop 3)
          else none
        else (parseJNumber cs1).map (fun pr => (Json.num pr.1, pr.2))
    | JTask.arrBody =>
      let cs1 := jsonSkipWs cs
      match cs1 with
      | [] => none
      | c :: _ =>
        if c = ']' then some (Json.arr [], cs1.tail)
        else parseJ fuel (JTask.arrElems []) cs1
    | JTask.arrElems acc =>
      match parseJ fuel JTask.val cs with
      | none => none
      | some (v, rest) =>
        match jsonSkipWs rest with
        | [] => none
        | c :: r =>
          if c = ',' then parseJ fuel (JTask.arrElems (v :: acc)) r
          else if c = ']' then some (Json.arr (v :: acc).reverse, r)
          else none
    | JTask.objBody =>
      let cs1 := jsonSkipWs cs
      match cs1 with
      | [] => none
      | c :: _ =>
        if c = rbraceChar then some (Json.obj [], cs1.tail)
        else parseJ fuel (JTask.objMembers []) cs1
    | JTask.objMembers acc =>
      match cs with
      | [] => none
      | c :: rest =>
        if c = quoteChar then
          match parseJStringBody (rest.length + 1) rest [] with
          | none => none
          | some (key, rest2) =>
            match jsonSkipWs rest2 with
            | [] => none
            | c2 :: rest4 =>
              if c2 = ':' then
                match parseJ fuel JTask.val rest4 with
                | none => none
                | some (v, rest5) =>
                  match jsonSkipWs rest5 with
                  | [] => none
                  | c3 :: r =>
                    if c3 = ',' then
                      parseJ fuel (JTask.objMembers ((String.mk key, v) :: acc)) (jsonSkipWs r)
                    else if c3 = rbraceChar then
                      some (Json.obj ((String.mk key, v) :: acc).reverse, r)
                    else none
              else none
        else none

/-- Full-text JSON parse modelling serde_json::from_str: one value, then
only whitespace may remain.  The fuel is an upper bound on the recursion
depth, generous enough for any input of the given length. -/
def parseJsonText (s : String) : Option Json :=
  let cs := s.toList
  match parseJ (4 * cs.length + 16) JTask.val cs with
  | some (v, rest) => if (jsonSkipWs rest).isEmpty then some v else none
  | none => none

/-- The helper struct deserialized from the SVGNODE payload
(importer.rs SvgNode / SvgNodeAttrs). -/
structure SvgNode where
  uuid : String
  title : String
  deriving DecidableEq

/-- Object member lookup. -/
def lookupMember (ms : List (String × Json)) (key : String) : Option Json :=
  (ms.find? (fun m => m.1 == key)).map Prod.snd

/-- serde_json::from_str::<SvgNode>: the text must be one JSON object with
an attrs object member holding string members uuid and title; any other
shape of data is a deserialization error. -/
def svgNodeFromStr (s : String) : Except String SvgNode :=
  match parseJsonText s with
  | none => Except.error "invalid JSON"
  | some (Json.obj ms) =>
    match lookupMember ms ("attrs") with
    | some (Json.obj ams) =>
      match lookupMember ams ("uuid"), lookupMember ams ("title") with
      | some (Json.str u), some (Json.str t) => Except.ok { uuid := u, title := t }
      | _, _ => Except.error "invalid attrs"
    | _ => Except.error "missing attrs"
  | some _ => Except.error "not an object"

/-- Symbol metadata (easyeda_models EeSymbolInfo; refPrefix is the source
field named pre/prefix). -/
structure EeSymbolInfo where
  name : String
  refPrefix : String
  package : Option String
  datasheet : Option String
  lcsc_id : Option String
  is_extended : Bool
  deriving DecidableEq

/-- Schematic pin decoded from a P shape line (EeSymbolPin). -/
structure EeSymbolPin where
  number : String
  name : String
  pos_x : ℚ
  pos_y : ℚ
  rotation : ℤ
  pin_type : String
  pin_length : ℚ
  deriving DecidableEq

/-- Schematic rectangle decoded from an R shape line (EeSymbolRectangle). -/
structure EeSymbolRectangle where
  x : ℚ
  y : ℚ
  width : ℚ
  height : ℚ
  deriving DecidableEq

/-- Decoded symbol entity (EeSymbol). -/
structure EeSymbol where
  info : EeSymbolInfo
  bbox : ℚ × ℚ
  pins : List EeSymbolPin
  rectangles : List EeSymbolRectangle
  deriving DecidableEq

/-- Footprint metadata (EeFootprintInfo). -/
structure EeFootprintInfo where
  name : String
  deriving DecidableEq

/-- Footprint pad decoded from a PAD shape line (EeFootprintPad, including
the hole_length field used by the converter). -/
structure EeFootprintPad where
  shape : String
  center_x : ℚ
  center_y : ℚ
  width : ℚ
  height : ℚ
  layer_id : ℤ
  number : String
  hole_radius : ℚ
  hole_length : ℚ
  rotation : ℚ
  deriving DecidableEq

/-- Footprint track decoded from a TRACK shape line (EeFootprintTrack). -/
structure EeFootprintTrack where
  stroke_width : ℚ
  layer_id : ℤ
  points : List (ℚ × ℚ)
  deriving DecidableEq

/-- Footprint text decoded from a TEXT shape line (EeFootprintText). -/
structure EeFootprintText where
  text_type : String
  center_x : ℚ
  center_y : ℚ
  rotation : ℚ
  layer_id : ℤ
  text : String
  deriving DecidableEq

/-- Footprint circle decoded from a CIRCLE shape line (EeFootprintCircle). -/
structure EeFootprintCircle where
  layer_id : ℤ
  stroke_width : ℚ
  center_x : ℚ
  center_y : ℚ
  radius : ℚ
  deriving DecidableEq

/-- Footprint arc decoded from an ARC shape line (EeFootprintArc). -/
structure EeFootprintArc where
  layer_id : ℤ
  stroke_width : ℚ
  path : String
  deriving DecidableEq

/-- Decoded footprint entity (EeFootprint, including the circles and arcs
collections used by the importer and converter). -/
structure EeFootprint where
  info : EeFootprintInfo
  bbox : ℚ × ℚ
  pads : List EeFootprintPad
  tracks : List EeFootprintTrack
  texts : List EeFootprintText
  circles : List EeFootprintCircle
  arcs : List EeFootprintArc
  deriving DecidableEq

/-- 3D model reference (Ee3dModel); the binary STEP payload is kept as an
opaque byte list. -/
structure Ee3dModel where
  name : String
  uuid : String
  raw_obj : Option String
  step : Option (List Nat)
  deriving DecidableEq

/-- Target 3D model (Ki3dModel); glam Vec3 triples become rational triples. -/
structure Ki3dModel where
  name : String
  wrl_data : Option String
  step_data : Option (List Nat)
  offset : ℚ × ℚ × ℚ
  scale : ℚ × ℚ × ℚ
  rotate : ℚ × ℚ × ℚ
  deriving DecidableEq

/-- Target pad shape (FpShape). -/
inductive FpShape where
  | Circle
  | Rect
  | Oval
  deriving DecidableEq

/-- Target pad (FpPad). -/
structure FpPad where
  number : String
  pad_type : String
  shape : FpShape
  pos : ℚ × ℚ
  size : ℚ × ℚ
  layers : List String
  rotation : ℚ
  drill : Option ℚ
  drill_oval : Option (ℚ × ℚ)
  deriving DecidableEq

/-- Target graphic primitive payload (FpGraphicType; endPoint is the source
field named end). -/
inductive FpGraphicType where
  | Line (start : ℚ × ℚ) (endPoint : ℚ × ℚ)
  | Circle (center : ℚ × ℚ) (endPoint : ℚ × ℚ)
  deriving DecidableEq

/-- Target graphic element (FpGraphic). -/
structure FpGraphic where
  layer : String
  width : ℚ
  graphic_type : FpGraphicType
  deriving DecidableEq

/-- Target footprint text (FpText). -/
structure FpText where
  text_type : String
  text : String
  pos : ℚ × ℚ
  layer : String
  deriving DecidableEq

/-- Target footprint (KiFootprint, including the graphics collection). -/
structure KiFootprint where
  name : String
  pads : List FpPad
  texts : List FpText
  graphics : List FpGraphic
  model_3d : Option Ki3dModel
  deriving DecidableEq

/-- Target pin electrical type (KiPinType). -/
inductive KiPinType where
  | Input
  | Output
  | Bidirectional
  | PowerIn
  | Passive
  | Unspecified
  deriving DecidableEq

/-- Target symbol pin (KiSymbolPin). -/
structure KiSymbolPin where
  name : String
  number : String
  pin_type : KiPinType
  length : ℚ
  pos : ℚ × ℚ
  rotation : ℤ
  deriving DecidableEq

/-- Target symbol rectangle (KiSymbolRect; endPoint is the source field
named end). -/
structure KiSymbolRect where
  start : ℚ × ℚ
  endPoint : ℚ × ℚ
  deriving DecidableEq

/-- Target symbol (KiSymbol). -/
structure KiSymbol where
  name : String
  reference : String
  footprint : String
  datasheet : String
  lcsc_part : Option String
  is_extended : Bool
  pins : List KiSymbolPin
  rectangles : List KiSymbolRect
  deriving DecidableEq

/-- The converter error enum (error.rs Error), restricted to the variants
the embedded functions can produce. -/
inductive ConvError where
  | MissingData (msg : String)
  | JsonError (msg : String)
  deriving DecidableEq

/-- converter.rs ee_to_mm: EasyEDA length units to millimeters. -/
def ee_to_mm (val : ℚ) : ℚ := val * 0.254

/-- converter.rs map_layer: EasyEDA layer id to KiCad layer name set. -/
def map_layer (layer_id : ℤ) (is_smd : Bool) : List String :=
  if ¬ is_smd then ["*.Cu", "*.Mask"]
  else if layer_id = 1 then ["F.Cu", "F.Paste", "F.Mask"]
  else if layer_id = 2 then ["B.Cu", "B.Paste", "B.Mask"]
  else if layer_id = 3 then ["F.SilkS"]
  else if layer_id = 4 then ["B.SilkS"]
  else if layer_id = 13 then ["F.Fab"]
  else if layer_id = 15 then ["Dwgs.User"]
  else ["F.Fab"]

/-- converter.rs map_shape: EasyEDA pad shape name to KiCad shape. -/
def map_shape (shape : String) : FpShape :=
  if shape = "ELLIPSE" then FpShape.Circle
  else if shape = "RECT" then FpShape.Rect
  else if shape = "OVAL" then FpShape.Oval
  else FpShape.Rect

/-- converter.rs map_pin_type: EasyEDA pin type code to KiCad pin type. -/
def map_pin_type (ee_type : String) : KiPinType :=
  if ee_type = "1" then KiPinType.Input
  else if ee_type = "2" then KiPinType.Output
  else if ee_type = "3" then KiPinType.Bidirectional
  else if ee_type = "4" then KiPinType.PowerIn
  else KiPinType.Passive

/-- Exact rational value of f32::MAX, the initial minimum accumulator of
the symbol bounding-box scan. -/
def f32Max : ℚ := (2 ^ 24 - 1) * 2 ^ 104

/-- One update step of the running min/max accumulator
(min_x, max_x, min_y, max_y), mirroring the four comparison statements in
convert_symbol. -/
def minMaxStep (a : ℚ × ℚ × ℚ × ℚ) (xy : ℚ × ℚ) : ℚ × ℚ × ℚ × ℚ :=
  (if xy.1 < a.1 then xy.1 else a.1,
   if a.2.1 < xy.1 then xy.1 else a.2.1,
   if xy.2 < a.2.2.1 then xy.2 else a.2.2.1,
   if a.2.2.2 < xy.2 then xy.2 else a.2.2.2)

/-- Bounding-box-relative, unit-converted, y-inverted pin positions of a
symbol (the raw_pins vector of convert_symbol). -/
def symRawPins (s : EeSymbol) : List (ℚ × ℚ) :=
  s.pins.map (fun p => (ee_to_mm (p.pos_x - s.bbox.1), ee_to_mm (-(p.pos_y - s.bbox.2))))

/-- Start/end corner pairs of the symbol rectangles (the raw_rects vector
of convert_symbol). -/
def symRawRects (s : EeSymbol) : List ((ℚ × ℚ) × (ℚ × ℚ)) :=
  s.rectangles.map (fun r =>
    let start_x := ee_to_mm (r.x - s.bbox.1)
    let start_y := ee_to_mm (-(r.y - s.bbox.2))
    ((start_x, start_y), (start_x + ee_to_mm r.width, start_y - ee_to_mm r.height)))

/-- Midpoint of the bounding extremes over all pin positions and rectangle
corners, exactly as convert_symbol computes center_x / center_y (the fold
starts from f32::MAX / f32::MIN sentinels). -/
def symCenter (s : EeSymbol) : ℚ × ℚ :=
  let acc0 : ℚ × ℚ × ℚ × ℚ := (f32Max, -f32Max, f32Max, -f32Max)
  let acc1 := (symRawPins s).foldl minMaxStep acc0
  let acc2 := (symRawRects s).foldl (fun a pr => minMaxStep (minMaxStep a pr.1) pr.2) acc1
  ((acc2.1 + acc2.2.1) / 2, (acc2.2.2.1 + acc2.2.2.2) / 2)

/-- converter.rs convert_symbol.  The source function always returns Ok, so
the Result wrapper is omitted. -/
def convert_symbol (s : EeSymbol) : KiSymbol :=
  let c := symCenter s
  let ki_pins := (s.pins.zip (symRawPins s)).map (fun pr =>
    { name := pr.1.name
      number := pr.1.number
      pin_type := map_pin_type pr.1.pin_type
      length := ee_to_mm pr.1.pin_length
      pos := (pr.2.1 - c.1, pr.2.2 - c.2)
      rotation := (pr.1.rotation + 180).tmod 360 : KiSymbolPin })
  let ki_rects := (s.rectangles.zip (symRawRects s)).map (fun pr =>
    { start := (pr.2.1.1 - c.1, pr.2.1.2 - c.2)
      endPoint := (pr.2.2.1 - c.1, pr.2.2.2 - c.2) : KiSymbolRect })
  { name := s.info.name
    reference := s.info.refPrefix
    footprint := s.info.package.getD ""
    datasheet := s.info.datasheet.getD ""
    lcsc_part := s.info.lcsc_id
    is_extended := s.info.is_extended
    pins := ki_pins
    rectangles := ki_rects }

/-- One step of the centroid accumulation (sum_x, sum_y, count) in
convert_footprint. -/
def sumStep (a : ℚ × ℚ × ℚ) (xy : ℚ × ℚ) : ℚ × ℚ × ℚ :=
  (a.1 + xy.1, a.2.1 + xy.2, a.2.2 + 1)

/-- Bounding-box-relative, unit-converted pad centers (raw_pad_pos). -/
def fpRawPadPos (fp : EeFootprint) : List (ℚ × ℚ) :=
  fp.pads.map (fun p => (ee_to_mm (p.center_x - fp.bbox.1), ee_to_mm (p.center_y - fp.bbox.2)))

/-- Bounding-box-relative, unit-converted text centers (raw_text_pos). -/
def fpRawTextPos (fp : EeFootprint) : List (ℚ × ℚ) :=
  fp.texts.map (fun t => (ee_to_mm (t.center_x - fp.bbox.1), ee_to_mm (t.center_y - fp.bbox.2)))

/-- Centroid of the pad positions, falling back to the text positions when
there are no pads and to the origin when there is neither, exactly as
convert_footprint computes center_x / center_y. -/
def fpCenter (fp : EeFootprint) : ℚ × ℚ :=
  let s1 := (fpRawPadPos fp).foldl sumStep (0, 0, 0)
  let s2 := if s1.2.2 = 0 then (fpRawTextPos fp).foldl sumStep s1 else s1
  if 0 < s2.2.2 then (s2.1 / s2.2.2, s2.2.1 / s2.2.2) else (0, 0)

/-- Conversion of one pad at 0-based position idx in the pad list, the loop
body of the PADS section of convert_footprint. -/
def mkPad (c : ℚ × ℚ) (idx : Nat) (p : EeFootprintPad) (xy : ℚ × ℚ) : FpPad :=
  let is_smd : Bool := p.hole_radius = 0 ∧ p.hole_length = 0
  let pad_number := if trimIsEmpty p.number then toString (idx + 1) else p.number
  let dr : Option ℚ × Option (ℚ × ℚ) :=
    if is_smd then (none, none)
    else if 0 < p.hole_length then
      (none, some (ee_to_mm (p.hole_radius * 2), ee_to_mm p.hole_length))
    else (some (ee_to_mm (p.hole_radius * 2)), none)
  { number := pad_number
    pad_type := if is_smd then "smd" else "thru_hole"
    shape := map_shape p.shape
    pos := (xy.1 - c.1, xy.2 - c.2)
    size := (ee_to_mm p.width, ee_to_mm p.height)
    layers := map_layer p.layer_id is_smd
    rotation := -p.rotation
    drill := dr.1
    drill_oval := dr.2 }

/-- The enumerated pad conversion loop of convert_footprint. -/
def convertPads (c : ℚ × ℚ) (idx : Nat) : List (EeFootprintPad × (ℚ × ℚ)) → List FpPad
  | [] => []
  | pr :: rest => mkPad c idx pr.1 pr.2 :: convertPads c (idx + 1) rest

/-- Consecutive point pairs of a track, the index pairs (i, i+1) of the
inner segment loop. -/
def consecPairs : List (ℚ × ℚ) → List ((ℚ × ℚ) × (ℚ × ℚ))
  | a :: b :: rest => (a, b) :: consecPairs (b :: rest)
  | _ => []

/-- One candidate line segment of a track: position both endpoints, then
drop the segment when the start point is more than 150 mm from the center
in either axis (the distance sanity check of convert_footprint). -/
def segLine (bbox c : ℚ × ℚ) (layer_name : String) (w : ℚ)
    (pq : (ℚ × ℚ) × (ℚ × ℚ)) : Option FpGraphic :=
  let start_x := ee_to_mm (pq.1.1 - bbox.1) - c.1
  let start_y := ee_to_mm (pq.1.2 - bbox.2) - c.2
  let end_x := ee_to_mm (pq.2.1 - bbox.1) - c.1
  let end_y := ee_to_mm (pq.2.2 - bbox.2) - c.2
  if 150 < |start_x| ∨ 150 < |start_y| then none
  else some { layer := layer_name, width := w,
              graphic_type := FpGraphicType.Line (start_x, start_y) (end_x, end_y) }

/-- The graphics produced from one track by convert_footprint: only
silkscreen / fabrication / documentation layers with at least two points
contribute, one candidate line per consecutive point pair. -/
def trackLines (bbox c : ℚ × ℚ) (t : EeFootprintTrack) : List FpGraphic :=
  let layer_name := ((map_layer t.layer_id true).head?).getD ""
  let is_graphic := containsSeq (("Silk").toList) layer_name.toList
    || containsSeq (("Fab").toList) layer_name.toList
    || containsSeq (("Dwgs").toList) layer_name.toList
  if is_graphic ∧ 2 ≤ t.points.length then
    (consecPairs t.points).filterMap (segLine bbox c layer_name (ee_to_mm t.stroke_width))
  else []

/-- The graphics produced from one circle by convert_footprint: layer ids
outside 1-4 are dropped, then the same 150 mm distance check on the center
and a 50 mm radius cap. -/
def circleLines (bbox c : ℚ × ℚ) (ci : EeFootprintCircle) : List FpGraphic :=
  if ci.layer_id ≠ 1 ∧ ci.layer_id ≠ 2 ∧ ci.layer_id ≠ 3 ∧ ci.layer_id ≠ 4 then []
  else
    let layer_name := ((map_layer ci.layer_id true).head?).getD ""
    let cx := ee_to_mm (ci.center_x - bbox.1) - c.1
    let cy := ee_to_mm (ci.center_y - bbox.2) - c.2
    let radius := ee_to_mm ci.radius
    if 150 < |cx| ∨ 150 < |cy| then []
    else if 50 < radius then []
    else [{ layer := layer_name, width := ee_to_mm ci.stroke_width,
            graphic_type := FpGraphicType.Circle (cx, cy) (cx + radius, cy) }]

/-- The automatic pin-1 marker of convert_footprint: a fixed silkscreen
circle offset outward from the pad numbered 1 (fallback A1). -/
def markerGraphics (pads : List FpPad) : List FpGraphic :=
  let pin1 := match pads.find? (fun p => p.number == "1") with
    | some p => some p
    | none => pads.find? (fun p => p.number == "A1")
  match pin1 with
  | none => []
  | some p1 =>
    let marker_radius : ℚ := 0.25
    let gap : ℚ := 0.5
    let px := p1.pos.1
    let py := p1.pos.2
    let sx := p1.size.1
    let sy := p1.size.2
    let dir_x : ℚ := if px < -0.01 then -1 else if 0.01 < px then 1 else -1
    let dir_y : ℚ := if py < -0.01 then -1 else if 0.01 < py then 1 else -1
    let clearance_x := sx / 2 + gap
    let clearance_y := sy / 2 + gap
    let dot_x := px + clearance_x * dir_x
    let dot_y := py + clearance_y * dir_y
    [{ layer := "F.SilkS", width := 0.15,
       graphic_type := FpGraphicType.Circle (dot_x, dot_y) (dot_x + marker_radius, dot_y) }]

/-- Conversion of one footprint text, the loop body of the TEXTS section
of convert_footprint. -/
def mkText (fpName : String) (c : ℚ × ℚ) (pr : EeFootprintText × (ℚ × ℚ)) : FpText :=
  let tt : String × String :=
    if pr.1.text_type = "P" then ("value", fpName)
    else if pr.1.text_type = "N" then ("reference", "REF**")
    else ("user", pr.1.text)
  let layer0 := ((map_layer pr.1.layer_id true).head?).getD "F.Fab"
  let layer := if tt.1 = "reference" then "F.SilkS"
    else if tt.1 = "value" then "F.Fab"
    else layer0
  { text_type := tt.1, text := tt.2, pos := (pr.2.1 - c.1, pr.2.2 - c.2), layer := layer }

/-- converter.rs convert_footprint.  The source function always returns Ok,
so the Result wrapper is omitted. -/
def convert_footprint (fp : EeFootprint) (ki_model : Option Ki3dModel) : KiFootprint :=
  let c := fpCenter fp
  let ki_pads := convertPads c 0 (fp.pads.zip (fpRawPadPos fp))
  { name := fp.info.name
    pads := ki_pads
    texts := (fp.texts.zip (fpRawTextPos fp)).map (mkText fp.info.name c)
    graphics := (fp.tracks.map (trackLines fp.bbox c)).flatten
      ++ ((fp.circles.map (circleLines fp.bbox c)).flatten ++ markerGraphics ki_pads)
    model_3d := ki_model }

/-- Fixed-precision rendering of one coordinate, modelling the Rust
format specifier with four decimal places (round half to even at the
fourth decimal). -/
def fmt4 (q : ℚ) : String :=
  let neg : Bool := q < 0
  let aq : ℚ := |q| * 10000
  let n : Nat := aq.floor.toNat
  let frac : ℚ := aq - (n : ℚ)
  let r : Nat :=
    if 1 / 2 < frac then n + 1
    else if frac < 1 / 2 then n
    else if n % 2 = 0 then n else n + 1
  let fs := toString (r % 10000)
  let fsPad := String.mk (List.replicate (4 - fs.length) '0') ++ fs
  (if neg then "-" else "") ++ toString (r / 10000) ++ "." ++ fsPad

/-- One face vertex reference of an OBJ face line: auxiliary slash-separated
indices are discarded, an unparsable reference defaults to 1, and the
1-indexed value is converted to 0-indexed by the usize subtraction n - 1.
The subtraction is checked: a reference parsing to 0 underflows, which
panics under overflow checks (none models that panic). -/
def faceIndexOfTok (tok : List Char) : Option Nat :=
  let first := ((splitOnChar '/' tok).head?).getD (['1'])
  let n := (parseUsize first).getD 1
  if n = 0 then none else some (n - 1)

/-- Collection of the 0-indexed face references of one face line, in
order, stopping at the first reference that panics (Rust collects the
mapped iterator left to right, so the panic happens at the first bad
token). -/
def collectIdx : List (List Char) → Option (List Nat)
  | [] => some []
  | tok :: rest =>
    match faceIndexOfTok tok with
    | none => none
    | some i => (collectIdx rest).map (fun is => i :: is)

/-- One line of the OBJ scan of convert_3d_model, threading the vertex and
face accumulators; none records that a face reference panicked. -/
def objLineStep (acc : Option (List (ℚ × ℚ × ℚ) × List (List Nat)))
    (line : List Char) : Option (List (ℚ × ℚ × ℚ) × List (List Nat)) :=
  match acc with
  | none => none
  | some (vs, fs) =>
    let parts := splitWhitespace line
    match parts.head? with
    | none => some (vs, fs)
    | some p0 =>
      if p0 = ['v'] then
        if 4 ≤ parts.length then
          let x := (parseF32 ((parts.get? 1).getD [])).getD 0
          let y := (parseF32 ((parts.get? 2).getD [])).getD 0
          let z := (parseF32 ((parts.get? 3).getD [])).getD 0
          some (vs ++ [(x * 0.254 * 1.55, y * 0.254 * 1.55, z * 0.254 * 1.55)], fs)
        else some (vs, fs)
      else if p0 = ['f'] then
        if 4 ≤ parts.length then
          match collectIdx (parts.drop 1) with
          | some idxs => some (vs, fs ++ [idxs])
          | none => none
        else some (vs, fs)
      else some (vs, fs)

/-- The VRML text assembled by convert_3d_model from the scanned vertices
and faces (braces written through their escape codes). -/
def buildWrl (vs : List (ℚ × ℚ × ℚ)) (fs : List (List Nat)) : String :=
  "#VRML V2.0 utf8\n" ++ "Shape \x7b\n" ++ "  appearance Appearance \x7b\n"
  ++ "    material Material \x7b diffuseColor 0.5 0.5 0.5 \x7d\n" ++ "  \x7d\n"
  ++ "  geometry IndexedFaceSet \x7b\n" ++ "    coord Coordinate \x7b\n"
  ++ "      point [\n"
  ++ String.join (vs.map (fun v =>
        "        " ++ fmt4 v.1 ++ " " ++ fmt4 v.2.1 ++ " " ++ fmt4 v.2.2 ++ ",\n"))
  ++ "      ]\n" ++ "    \x7d\n" ++ "    coordIndex [\n"
  ++ String.join (fs.map (fun f =>
        "      " ++ String.intercalate (", ") (f.map (fun i => toString i)) ++ ", -1,\n"))
  ++ "    ]\n" ++ "  \x7d\n" ++ "\x7d\n"

/-- converter.rs convert_3d_model.  The source function never returns Err;
its only failure mode is the index underflow panic, modelled by none. -/
def convert_3d_model (m : Ee3dModel) : Option Ki3dModel :=
  match m.raw_obj with
  | none => some { name := m.name, wrl_data := none, step_data := m.step,
                   offset := (0, 0, 0), scale := (1, 1, 1), rotate := (0, 0, 0) }
  | some obj =>
    match (rustLines obj.toList).foldl objLineStep (some ([], [])) with
    | none => none
    | some (vs, fs) =>
      some { name := m.name, wrl_data := some (buildWrl vs fs), step_data := m.step,
             offset := (0, 0, 0), scale := (1, 1, 1), rotate := (0, 0, 0) }

/-- importer.rs parse_raw_line: split one shape line at every tilde. -/
def parse_raw_line (l : List Char) : List (List Char) :=
  splitOnChar '~' l

/-- Decoding of one pin shape line (the P branch of import_symbol): the
line splits at caret pairs into at least 4 segments, whose settings, path
and name groups must have more than 7, 1 and 5 tilde fields; the pin
length is the last whitespace token of the path field, defaulting to the
token 0 when the path is empty and to the value 10.0 when the token does
not parse. -/
def pinOfShape (cs : List Char) : Option EeSymbolPin :=
  let segments := splitOnPair '^' '^' cs
  if 4 ≤ segments.length then
    let settings := parse_raw_line (segments.getD 0 [])
    let path := parse_raw_line (segments.getD 2 [])
    let name_data := parse_raw_line (segments.getD 3 [])
    if 7 < settings.length ∧ 5 < name_data.length ∧ 1 < path.length then
      let path_commands := splitWhitespace (path.getD 1 [])
      some { number := String.mk (settings.getD 3 [])
             name := String.mk (name_data.getD 4 [])
             pos_x := (parseF32 (settings.getD 4 [])).getD 0
             pos_y := (parseF32 (settings.getD 5 [])).getD 0
             rotation := (parseI32 (settings.getD 6 [])).getD 0
             pin_type := String.mk (settings.getD 2 [])
             pin_length := (parseF32 ((path_commands.getLast?).getD (['0']))).getD 10 }
    else none
  else none

/-- Decoding of one rectangle shape line (the R branch of import_symbol). -/
def rectOfShape (cs : List Char) : Option EeSymbolRectangle :=
  let fields := parse_raw_line cs
  match fields.head? with
  | none => none
  | some f0 =>
    if f0 = (("R").toList) ∧ 6 < fields.length then
      some { x := (parseF32 (fields.getD 1 [])).getD 0
             y := (parseF32 (fields.getD 2 [])).getD 0
             width := (parseF32 (fields.getD 5 [])).getD 0
             height := (parseF32 (fields.getD 6 [])).getD 0 }
    else none

/-- One iteration of the shape loop of import_symbol, pushing onto the pin
and rectangle accumulators.  A split line is never empty, so the
is-empty continue of the source is unreachable. -/
def symShapeStep (acc : List EeSymbolPin × List EeSymbolRectangle)
    (shape_val : Json) : List EeSymbolPin × List EeSymbolRectangle :=
  let cs := ((shape_val.as_str).getD "").toList
  if cs.head? = some 'P' ∧ containsSeq ['^', '^'] cs then
    match pinOfShape cs with
    | some p => (acc.1 ++ [p], acc.2)
    | none => acc
  else
    match rectOfShape cs with
    | some r => (acc.1, acc.2 ++ [r])
    | none => acc

/-- importer.rs import_symbol. -/
def import_symbol (data : Json) : Except ConvError EeSymbol :=
  let data_str := data.index ("dataStr")
  let c_para := (data_str.index ("head")).index ("c_para")
  let info : EeSymbolInfo :=
    { name := ((c_para.index ("name")).as_str).getD ("Unknown")
      refPrefix := ((c_para.index ("pre")).as_str).getD ("U")
      package := (c_para.index ("package")).as_str
      datasheet := ((data.index ("lcsc")).index ("url")).as_str
      lcsc_id := ((data.index ("lcsc")).index ("number")).as_str
      is_extended := ((c_para.index ("JLCPCB Part Class")).as_str) == some ("Extended Part") }
  let bbox_x := (parseF32 ((((data_str.index ("head")).index ("x")).as_str).getD ("0")).toList).getD 0
  let bbox_y := (parseF32 ((((data_str.index ("head")).index ("y")).as_str).getD ("0")).toList).getD 0
  match (data_str.index ("shape")).as_array with
  | none => Except.error (ConvError.MissingData ("Symbol shape data is missing"))
  | some shapes =>
    let acc := shapes.foldl symShapeStep ([], [])
    Except.ok { info := info, bbox := (bbox_x, bbox_y), pins := acc.1, rectangles := acc.2 }

/-- Decoding of one PAD shape line (import_footprint): requires more than
11 tilde fields; the hole length prefers field 13 and falls back to
field 12 only when the field-13 value is zero and field 12 parses to a
positive length. -/
def padOfFields (fields : List (List Char)) : Option EeFootprintPad :=
  if 11 < fields.length then
    let hole_radius := (parseF32 (fields.getD 9 [])).getD 0
    let hl0 : ℚ := if 13 < fields.length then (parseF32 (fields.getD 13 [])).getD 0 else 0
    let hole_length : ℚ :=
      if hl0 = 0 ∧ 12 < fields.length then
        let val := (parseF32 (fields.getD 12 [])).getD 0
        if 0 < val then val else hl0
      else hl0
    some { shape := String.mk (fields.getD 1 [])
           center_x := (parseF32 (fields.getD 2 [])).getD 0
           center_y := (parseF32 (fields.getD 3 [])).getD 0
           width := (parseF32 (fields.getD 4 [])).getD 0
           height := (parseF32 (fields.getD 5 [])).getD 0
           layer_id := (parseI32 (fields.getD 6 [])).getD 0
           number := String.mk (fields.getD 8 [])
           hole_radius := hole_radius
           hole_length := hole_length
           rotation := (parseF32 (fields.getD 11 [])).getD 0 }
  else none

/-- Coordinate pairs of a TRACK point field: tokens are consumed two at a
time, an unpaired trailing token is dropped. -/
def coordPairs : List (List Char) → List (ℚ × ℚ)
  | a :: b :: rest => ((parseF32 a).getD 0, (parseF32 b).getD 0) :: coordPairs rest
  | _ => []

/-- Decoding of one TRACK shape line (import_footprint). -/
def trackOfFields (fields : List (List Char)) : Option EeFootprintTrack :=
  if 4 < fields.length then
    some { stroke_width := (parseF32 (fields.getD 1 [])).getD 0
           layer_id := (parseI32 (fields.getD 2 [])).getD 0
           points := coordPairs (splitOnChar ' ' (fields.getD 4 [])) }
  else none

/-- Decoding of one TEXT shape line (import_footprint). -/
def textOfFields (fields : List (List Char)) : Option EeFootprintText :=
  if 10 < fields.length then
    some { text_type := String.mk (fields.getD 1 [])
           center_x := (parseF32 (fields.getD 2 [])).getD 0
           center_y := (parseF32 (fields.getD 3 [])).getD 0
           rotation := (parseF32 (fields.getD 5 [])).getD 0
           layer_id := (parseI32 (fields.getD 7 [])).getD 0
           text := String.mk (fields.getD 10 []) }
  else none

/-- Decoding of one CIRCLE shape line (import_footprint); the stroke width
defaults to 0.1 when unparsable. -/
def circleOfFields (fields : List (List Char)) : Option EeFootprintCircle :=
  if 5 < fields.length then
    some { layer_id := (parseI32 (fields.getD 1 [])).getD 0
           stroke_width := (parseF32 (fields.getD 2 [])).getD 0.1
           center_x := (parseF32 (fields.getD 3 [])).getD 0
           center_y := (parseF32 (fields.getD 4 [])).getD 0
           radius := (parseF32 (fields.getD 5 [])).getD 0 }
  else none

/-- Decoding of one ARC shape line (import_footprint); the stroke width
defaults to 0.1 when unparsable. -/
def arcOfFields (fields : List (List Char)) : Option EeFootprintArc :=
  if 3 < fields.length then
    some { layer_id := (parseI32 (fields.getD 1 [])).getD 0
           stroke_width := (parseF32 (fields.getD 2 [])).getD 0.1
           path := String.mk (fields.getD 3 []) }
  else none

/-- The five entity accumulators of the import_footprint shape loop. -/
structure FpShapeAcc where
  pads : List EeFootprintPad
  tracks : List EeFootprintTrack
  texts : List EeFootprintText
  circles : List EeFootprintCircle
  arcs : List EeFootprintArc
  deriving DecidableEq

/-- One iteration of the shape loop of import_footprint, dispatching on
the leading tag and pushing onto the matching accumulator. -/
def fpShapeStep (acc : FpShapeAcc) (shape_val : Json) : FpShapeAcc :=
  let fields := parse_raw_line (((shape_val.as_str).getD "").toList)
  match fields.head? with
  | none => acc
  | some f0 =>
    if f0 = (("PAD").toList) then
      match padOfFields fields with
      | some p => { acc with pads := acc.pads ++ [p] }
      | none => acc
    else if f0 = (("TRACK").toList) then
      match trackOfFields fields with
      | some t => { acc with tracks := acc.tracks ++ [t] }
      | none => acc
    else if f0 = (("TEXT").toList) then
      match textOfFields fields with
      | some t => { acc with texts := acc.texts ++ [t] }
      | none => acc
    else if f0 = (("CIRCLE").toList) then
      match circleOfFields fields with
      | some ci => { acc with circles := acc.circles ++ [ci] }
      | none => acc
    else if f0 = (("ARC").toList) then
      match arcOfFields fields with
      | some a => { acc with arcs := acc.arcs ++ [a] }
      | none => acc
    else acc

/-- importer.rs import_footprint. -/
def import_footprint (data : Json) : Except ConvError EeFootprint :=
  let data_str := (data.index ("packageDetail")).index ("dataStr")
  let info : EeFootprintInfo :=
    { name := (((data.index ("packageDetail")).index ("title")).as_str).getD ("UnknownFootprint") }
  let bbox_x := (parseF32 ((((data_str.index ("head")).index ("x")).as_str).getD ("0")).toList).getD 0
  let bbox_y := (parseF32 ((((data_str.index ("head")).index ("y")).as_str).getD ("0")).toList).getD 0
  match (data_str.index ("shape")).as_array with
  | none => Except.error (ConvError.MissingData ("Footprint shape data is missing"))
  | some shapes =>
    let acc := shapes.foldl fpShapeStep
      { pads := [], tracks := [], texts := [], circles := [], arcs := [] }
    Except.ok { info := info, bbox := (bbox_x, bbox_y), pads := acc.pads,
                tracks := acc.tracks, texts := acc.texts, circles := acc.circles,
                arcs := acc.arcs }

/-- The shape scan of import_3d_model_info: the first string entry tagged
SVGNODE decides the outcome — its tilde remainder must deserialize as an
SvgNode, any failure propagating as a JSON error; with no SVGNODE entry
the scan reports that there is no model. -/
def import3dScan : List Json → Except ConvError (Option Ee3dModel)
  | [] => Except.ok none
  | v :: rest =>
    match v.as_str with
    | some s =>
      if (("SVGNODE~").toList).isPrefixOf s.toList then
        match splitOnceChar '~' s.toList with
        | some pr =>
          match svgNodeFromStr (String.mk pr.2) with
          | Except.ok node =>
            Except.ok (some { name := node.title, uuid := node.uuid,
                              raw_obj := none, step := none })
          | Except.error e => Except.error (ConvError.JsonError e)
        | none => import3dScan rest
      else import3dScan rest
    | none => import3dScan rest

/-- importer.rs import_3d_model_info. -/
def import_3d_model_info (data : Json) : Except ConvError (Option Ee3dModel) :=
  match (((data.index ("packageDetail")).index ("dataStr")).index ("shape")).as_array with
  | none =>
    Except.error (ConvError.MissingData ("Footprint shape data is missing or not an array"))
  | some shapes => import3dScan shapes

/-- Zipping a list with its own map produces the map of the pairing. -/
theorem zip_map_self {α β : Type} (l : List α) (f : α → β) :
    l.zip (l.map f) = l.map (fun a => (a, f a)) := by
  induction l with
  | nil => rfl
  | cons a as ih => simp [List.zip_cons_cons, ih]

/-- Element i of the enumerated pad loop is the conversion of element i of
the input, numbered from the starting index. -/
theorem convertPads_getElem? (c : ℚ × ℚ) (idx : Nat)
    (l : List (EeFootprintPad × (ℚ × ℚ))) (i : Nat) :
    (convertPads c idx l)[i]? = l[i]?.map (fun pr => mkPad c (idx + i) pr.1 pr.2) := by
  induction l generalizing idx i with
  | nil => simp [convertPads]
  | cons a as ih =>
    cases i with
    | zero => simp [convertPads]
    | succ j =>
      simp only [convertPads, List.getElem?_cons_succ, ih (idx + 1) j, Option.map]
      have harith : idx + 1 + j = idx + (j + 1) := by omega
      rw [harith]

/-- Pad i of the converted footprint is mkPad applied to source pad i and
its raw position. -/
theorem convert_footprint_pad_at (fp : EeFootprint) (km : Option Ki3dModel)
    (i : Nat) (p : EeFootprintPad) (hp : fp.pads[i]? = some p) :
    (convert_footprint fp km).pads[i]?
      = some (mkPad (fpCenter fp) i p
          (ee_to_mm (p.center_x - fp.bbox.1), ee_to_mm (p.center_y - fp.bbox.2))) := by
  have hzip : fp.pads.zip (fpRawPadPos fp)
      = fp.pads.map (fun q =>
          (q, (ee_to_mm (q.center_x - fp.bbox.1), ee_to_mm (q.center_y - fp.bbox.2)))) :=
    zip_map_self fp.pads _
  have h1 : (convert_footprint fp km).pads
      = convertPads (fpCenter fp) 0 (fp.pads.zip (fpRawPadPos fp)) := rfl
  rw [h1, convertPads_getElem?, hzip, List.getElem?_map, hp]
  simp

/-- C1: convert_footprint classifies a pad as SMD exactly when both the
hole radius and the hole length are zero (pad type smd, no drill of either
kind); a positive hole length yields an oval drill of width 2×radius and
height hole-length in millimeters; otherwise a circular drill of diameter
2×radius is produced; the three drill forms are mutually exclusive. -/
theorem C1_pad_drill_classification (fp : EeFootprint) (km : Option Ki3dModel) (i : Nat)
    (p : EeFootprintPad) (hp : fp.pads[i]? = some p) :
    ∃ k : FpPad, (convert_footprint fp km).pads[i]? = some k ∧
      ((k.pad_type = "smd") ↔ (p.hole_radius = 0 ∧ p.hole_length = 0)) ∧
      (p.hole_radius = 0 ∧ p.hole_length = 0 → k.drill = none ∧ k.drill_oval = none) ∧
      (0 < p.hole_length → k.drill = none ∧
        k.drill_oval = some (ee_to_mm (p.hole_radius * 2), ee_to_mm p.hole_length)) ∧
      (¬(p.hole_radius = 0 ∧ p.hole_length = 0) → ¬ 0 < p.hole_length →
        k.drill = some (ee_to_mm (p.hole_radius * 2)) ∧ k.drill_oval = none) ∧
      ¬(k.drill ≠ none ∧ k.drill_oval ≠ none) := by
  refine ⟨_, convert_footprint_pad_at fp km i p hp, ?_⟩
  by_cases hsmd : p.hole_radius = 0 ∧ p.hole_length = 0
  · simp [mkPad, hsmd.1, hsmd.2]
  · by_cases hl : 0 < p.hole_length
    · simp [mkPad, hsmd, hl]
    · simp [mkPad, hsmd, hl]

/-- Concrete through-hole pad used by the C1 witness. -/
def padW1 : EeFootprintPad :=
  { shape := "ELLIPSE", center_x := 0, center_y := 0, width := 1, height := 1,
    layer_id := 1, number := "1", hole_radius := 1, hole_length := 0, rotation := 0 }

/-- Concrete one-pad footprint used by the C1 witness. -/
def fpW1 : EeFootprint :=
  { info := { name := "W1" }, bbox := (0, 0), pads := [padW1],
    tracks := [], texts := [], circles := [], arcs := [] }

/-- Witness for C1 at a concrete through-hole pad (radius 1, length 0). -/
theorem C1_pad_drill_classification_witness :
    fpW1.pads[0]? = some padW1 ∧
    (∃ k : FpPad, (convert_footprint fpW1 none).pads[0]? = some k ∧
      ((k.pad_type = "smd") ↔ (padW1.hole_radius = 0 ∧ padW1.hole_length = 0)) ∧
      (padW1.hole_radius = 0 ∧ padW1.hole_length = 0 → k.drill = none ∧ k.drill_oval = none) ∧
      (0 < padW1.hole_length → k.drill = none ∧
        k.drill_oval = some (ee_to_mm (padW1.hole_radius * 2), ee_to_mm padW1.hole_length)) ∧
      (¬(padW1.hole_radius = 0 ∧ padW1.hole_length = 0) → ¬ 0 < padW1.hole_length →
        k.drill = some (ee_to_mm (padW1.hole_radius * 2)) ∧ k.drill_oval = none) ∧
      ¬(k.drill ≠ none ∧ k.drill_oval ≠ none)) :=
  ⟨rfl, C1_pad_drill_classification fpW1 none 0 padW1 rfl⟩

/-- C9: a pad whose source number is empty or all-whitespace is numbered
by its 1-based position in the pad list; any other pad keeps its source
number verbatim. -/
theorem C9_pad_number_fallback (fp : EeFootprint) (km : Option Ki3dModel) (i : Nat)
    (p : EeFootprintPad) (hp : fp.pads[i]? = some p) :
    ∃ k : FpPad, (convert_footprint fp km).pads[i]? = some k ∧
      k.number = (if trimIsEmpty p.number then toString (i + 1) else p.number) := by
  refine ⟨_, convert_footprint_pad_at fp km i p hp, ?_⟩
  simp [mkPad]

/-- Concrete pad with a whitespace-only number used by the C9 witness. -/
def padW9 : EeFootprintPad :=
  { shape := "RECT", center_x := 0, center_y := 0, width := 1, height := 1,
    layer_id := 1, number := "  ", hole_radius := 0, hole_length := 0, rotation := 0 }

/-- Concrete footprint used by the C9 witness. -/
def fpW9 : EeFootprint :=
  { info := { name := "W9" }, bbox := (0, 0), pads := [padW9],
    tracks := [], texts := [], circles := [], arcs := [] }

/-- Witness for C9 at a concrete pad with a whitespace-only number. -/
theorem C9_pad_number_fallback_witness :
    fpW9.pads[0]? = some padW9 ∧
    (∃ k : FpPad, (convert_footprint fpW9 none).pads[0]? = some k ∧
      k.number = (if trimIsEmpty padW9.number then toString (0 + 1) else padW9.number)) :=
  ⟨rfl, C9_pad_number_fallback fpW9 none 0 padW9 rfl⟩

/-- Pin i of the converted symbol is the positioned, remapped conversion
of source pin i. -/
theorem convert_symbol_pin_at (s : EeSymbol) (i : Nat) (p : EeSymbolPin)
    (hp : s.pins[i]? = some p) :
    (convert_symbol s).pins[i]? = some
      { name := p.name, number := p.number, pin_type := map_pin_type p.pin_type,
        length := ee_to_mm p.pin_length,
        pos := (ee_to_mm (p.pos_x - s.bbox.1) - (symCenter s).1,
                ee_to_mm (-(p.pos_y - s.bbox.2)) - (symCenter s).2),
        rotation := (p.rotation + 180).tmod 360 } := by
  have hzip : s.pins.zip (symRawPins s)
      = s.pins.map (fun q =>
          (q, (ee_to_mm (q.pos_x - s.bbox.1), ee_to_mm (-(q.pos_y - s.bbox.2))))) :=
    zip_map_self s.pins _
  show ((s.pins.zip (symRawPins s)).map _)[i]? = _
  rw [hzip, List.map_map, List.getElem?_map, hp]
  rfl

/-- Rectangle j of the converted symbol is the positioned conversion of
source rectangle j. -/
theorem convert_symbol_rect_at (s : EeSymbol) (j : Nat) (r : EeSymbolRectangle)
    (hr : s.rectangles[j]? = some r) :
    (convert_symbol s).rectangles[j]? = some
      { start := (ee_to_mm (r.x - s.bbox.1) - (symCenter s).1,
                  ee_to_mm (-(r.y - s.bbox.2)) - (symCenter s).2),
        endPoint := (ee_to_mm (r.x - s.bbox.1) + ee_to_mm r.width - (symCenter s).1,
                     ee_to_mm (-(r.y - s.bbox.2)) - ee_to_mm r.height - (symCenter s).2) } := by
  have hzip : s.rectangles.zip (symRawRects s)
      = s.rectangles.map (fun q =>
          let start_x := ee_to_mm (q.x - s.bbox.1)
          let start_y := ee_to_mm (-(q.y - s.bbox.2))
          (q, ((start_x, start_y),
               (start_x + ee_to_mm q.width, start_y - ee_to_mm q.height)))) :=
    zip_map_self s.rectangles _
  show ((s.rectangles.zip (symRawRects s)).map _)[j]? = _
  rw [hzip, List.map_map, List.getElem?_map, hr]
  rfl

/-- C3 amended: a symbol pin rotation becomes (src + 180) reduced by the
Rust remainder operator (truncated toward zero, so in [0,360) only when
src + 180 is nonnegative, and equal to the mathematical modulus there),
and a footprint pad rotation is the negation of the source rotation. -/
theorem C3_rotation_adjustment :
    (∀ (s : EeSymbol) (i : Nat) (p : EeSymbolPin), s.pins[i]? = some p →
      ∃ k : KiSymbolPin, (convert_symbol s).pins[i]? = some k ∧
        k.rotation = (p.rotation + 180).tmod 360 ∧
        (-180 ≤ p.rotation →
          k.rotation = (p.rotation + 180) % 360 ∧ 0 ≤ k.rotation ∧ k.rotation < 360))
    ∧ (∀ (fp : EeFootprint) (km : Option Ki3dModel) (j : Nat) (q : EeFootprintPad),
        fp.pads[j]? = some q →
        ∃ kp : FpPad, (convert_footprint fp km).pads[j]? = some kp ∧
          kp.rotation = -q.rotation) := by
  constructor
  · intro s i p hp
    refine ⟨_, convert_symbol_pin_at s i p hp, rfl, ?_⟩
    intro hge
    have h0 : (0 : ℤ) ≤ p.rotation + 180 := by omega
    have heq : (p.rotation + 180).tmod 360 = (p.rotation + 180) % 360 :=
      Int.tmod_eq_emod h0 (by norm_num)
    refine ⟨heq, ?_, ?_⟩
    · rw [heq]; exact Int.emod_nonneg _ (by norm_num)
    · rw [heq]; exact Int.emod_lt_of_pos _ (by norm_num)
  · intro fp km j q hq
    refine ⟨_, convert_footprint_pad_at fp km j q hq, rfl⟩

/-- Concrete pin with source rotation -270 used by the C3 counterexample. -/
def pinCE3 : EeSymbolPin :=
  { number := "1", name := "A", pos_x := 0, pos_y := 0,
    rotation := -270, pin_type := "1", pin_length := 10 }

/-- Concrete one-pin symbol used by the C3 counterexample. -/
def symCE3 : EeSymbol :=
  { info := { name := "S", refPrefix := "U", package := none, datasheet := none,
              lcsc_id := none, is_extended := false },
    bbox := (0, 0), pins := [pinCE3], rectangles := [] }

/-- C3 counterexample: for source rotation -270 the produced rotation is
-90, while the mathematical modulus (-270 + 180) mod 360 is 270; the
produced value is negative, so it is not in [0, 360). -/
theorem C3_counterexample :
    ((convert_symbol symCE3).pins[0]?.map KiSymbolPin.rotation) = some (-90) ∧
    ((-270 : ℤ) + 180) % 360 = 270 ∧ ¬((-90 : ℤ) = 270) ∧ ¬(0 ≤ (-90 : ℤ)) := by
  refine ⟨?_, by decide, by decide, by decide⟩
  rw [convert_symbol_pin_at symCE3 0 pinCE3 rfl]
  simp
  decide

/-- Concrete pin with source rotation 0 used by the C3 witness. -/
def pinW3 : EeSymbolPin :=
  { number := "1", name := "A", pos_x := 0, pos_y := 0,
    rotation := 0, pin_type := "1", pin_length := 10 }

/-- Concrete one-pin symbol used by the C3 witness. -/
def symW3 : EeSymbol :=
  { info := { name := "S", refPrefix := "U", package := none, datasheet := none,
              lcsc_id := none, is_extended := false },
    bbox := (0, 0), pins := [pinW3], rectangles := [] }

/-- Concrete pad with rotation 90 used by the C3 witness. -/
def padW3 : EeFootprintPad :=
  { shape := "RECT", center_x := 0, center_y := 0, width := 1, height := 1,
    layer_id := 1, number := "1", hole_radius := 0, hole_length := 0, rotation := 90 }

/-- Concrete footprint used by the C3 witness. -/
def fpW3 : EeFootprint :=
  { info := { name := "W3" }, bbox := (0, 0), pads := [padW3],
    tracks := [], texts := [], circles := [], arcs := [] }

/-- Witness for the amended C3 at concrete rotations 0 (pin) and 90 (pad). -/
theorem C3_rotation_adjustment_witness :
    (∃ k : KiSymbolPin, (convert_symbol symW3).pins[0]? = some k ∧
      k.rotation = (pinW3.rotation + 180).tmod 360 ∧
      (-180 ≤ pinW3.rotation →
        k.rotation = (pinW3.rotation + 180) % 360 ∧ 0 ≤ k.rotation ∧ k.rotation < 360)) ∧
    (∃ kp : FpPad, (convert_footprint fpW3 none).pads[0]? = some kp ∧
      kp.rotation = -padW3.rotation) :=
  ⟨C3_rotation_adjustment.1 symW3 0 pinW3 rfl,
   C3_rotation_adjustment.2 fpW3 none 0 padW3 rfl⟩

/-- C8 amended: conversion is not idempotent, because the 0.254 unit
factor is applied on every pass: for an already-normalized symbol
(bounding-box origin (0,0) and computed center (0,0)) every output pin
position is the 0.254-scaled, y-negated image of the source position, and
such a position is unchanged only when it is the origin.  Rectangle start
corners transform the same way. -/
theorem C8_normalization_scales (s : EeSymbol) (hb : s.bbox = (0, 0))
    (hc : symCenter s = (0, 0)) :
    (∀ (i : Nat) (p : EeSymbolPin), s.pins[i]? = some p →
      ∃ k : KiSymbolPin, (convert_symbol s).pins[i]? = some k ∧
        k.pos = (ee_to_mm p.pos_x, ee_to_mm (-p.pos_y)) ∧
        (k.pos = (p.pos_x, p.pos_y) → p.pos_x = 0 ∧ p.pos_y = 0))
    ∧ (∀ (j : Nat) (r : EeSymbolRectangle), s.rectangles[j]? = some r →
      ∃ kr : KiSymbolRect, (convert_symbol s).rectangles[j]? = some kr ∧
        kr.start = (ee_to_mm r.x, ee_to_mm (-r.y))) := by
  constructor
  · intro i p hp
    refine ⟨_, convert_symbol_pin_at s i p hp, ?_, ?_⟩
    · rw [hb, hc]
      norm_num
    · intro hfix
      rw [hb, hc] at hfix
      have h1 : ee_to_mm (p.pos_x - 0) - 0 = p.pos_x := congrArg Prod.fst hfix
      have h2 : ee_to_mm (-(p.pos_y - 0)) - 0 = p.pos_y := congrArg Prod.snd hfix
      simp only [ee_to_mm] at h1 h2
      constructor
      · have h254 : (0.254 : ℚ) ≠ 1 := by norm_num
        nlinarith [h1]
      · nlinarith [h2]
  · intro j r hr
    refine ⟨_, convert_symbol_rect_at s j r hr, ?_⟩
    rw [hb, hc]
    norm_num

/-- First pin of the already-normalized symbol of the C8 counterexample. -/
def pinCE8a : EeSymbolPin :=
  { number := "1", name := "A", pos_x := 10, pos_y := 10,
    rotation := 0, pin_type := "1", pin_length := 10 }

/-- Second pin of the already-normalized symbol of the C8 counterexample. -/
def pinCE8b : EeSymbolPin :=
  { number := "2", name := "B", pos_x := -10, pos_y := -10,
    rotation := 0, pin_type := "1", pin_length := 10 }

/-- Already-normalized two-pin symbol (bbox (0,0), computed center (0,0))
used by the C8 counterexample and witness. -/
def symCE8 : EeSymbol :=
  { info := { name := "S", refPrefix := "U", package := none, datasheet := none,
              lcsc_id := none, is_extended := false },
    bbox := (0, 0), pins := [pinCE8a, pinCE8b], rectangles := [] }

/-- The computed center of the C8 symbol is already zero. -/
theorem symCE8_center : symCenter symCE8 = (0, 0) := by
  norm_num [symCenter, symRawPins, symRawRects, minMaxStep, f32Max, ee_to_mm,
    symCE8, pinCE8a, pinCE8b]

/-- C8 counterexample: converting the already-normalized symbol (bbox
(0,0), computed center (0,0)) moves the pin at (10,10) to (2.54,-2.54),
so a second application of the conversion does not leave positions
unchanged. -/
theorem C8_counterexample :
    symCE8.bbox = (0, 0) ∧ symCenter symCE8 = (0, 0) ∧
    ((convert_symbol symCE8).pins[0]?.map KiSymbolPin.pos) = some (2.54, -2.54) ∧
    ¬(((2.54 : ℚ), (-2.54 : ℚ)) = ((pinCE8a.pos_x, pinCE8a.pos_y) : ℚ × ℚ)) := by
  refine ⟨rfl, symCE8_center, ?_, by norm_num [pinCE8a]⟩
  rw [convert_symbol_pin_at symCE8 0 pinCE8a rfl]
  rw [symCE8_center]
  show some _ = _
  norm_num [pinCE8a, symCE8, ee_to_mm]

/-- Witness for the amended C8 at the concrete normalized symbol. -/
theorem C8_normalization_scales_witness :
    ∃ k : KiSymbolPin, (convert_symbol symCE8).pins[0]? = some k ∧
      k.pos = (ee_to_mm pinCE8a.pos_x, ee_to_mm (-pinCE8a.pos_y)) ∧
      (k.pos = (pinCE8a.pos_x, pinCE8a.pos_y) → pinCE8a.pos_x = 0 ∧ pinCE8a.pos_y = 0) :=
  (C8_normalization_scales symCE8 rfl symCE8_center).1 0 pinCE8a rfl

/-- The length of a filterMap is the number of elements the function
keeps. -/
theorem length_filterMap_eq_countP {α β : Type} (f : α → Option β) (l : List α) :
    (l.filterMap f).length = l.countP (fun a => (f a).isSome) := by
  induction l with
  | nil => rfl
  | cons a as ih =>
    cases hfa : f a with
    | none => simp [List.filterMap_cons, hfa, List.countP_cons, ih]
    | some b => simp [List.filterMap_cons, hfa, List.countP_cons, ih]

/-- C2 amended: the output graphics are the per-track lines followed by
the circle graphics and the pin-1 marker; a candidate segment of a track
is kept exactly when its START endpoint is within 150 mm of the computed
center in both axes — the end point is not examined — and a graphic-layer
track with at least two points contributes exactly one line per
consecutive point pair whose start is in range. -/
theorem C2_track_start_only_filter :
    (∀ (fp : EeFootprint) (km : Option Ki3dModel),
      (convert_footprint fp km).graphics
        = (fp.tracks.map (trackLines fp.bbox (fpCenter fp))).flatten
          ++ ((fp.circles.map (circleLines fp.bbox (fpCenter fp))).flatten
              ++ markerGraphics (convert_footprint fp km).pads))
    ∧ (∀ (bbox c : ℚ × ℚ) (layer_name : String) (w : ℚ) (p q : ℚ × ℚ),
        (segLine bbox c layer_name w (p, q)).isSome
          ↔ (|ee_to_mm (p.1 - bbox.1) - c.1| ≤ 150 ∧ |ee_to_mm (p.2 - bbox.2) - c.2| ≤ 150))
    ∧ (∀ (bbox c : ℚ × ℚ) (t : EeFootprintTrack),
        (trackLines bbox c t).length
          = if (containsSeq (("Silk").toList) (((map_layer t.layer_id true).head?).getD "").toList
               || containsSeq (("Fab").toList) (((map_layer t.layer_id true).head?).getD "").toList
               || containsSeq (("Dwgs").toList) (((map_layer t.layer_id true).head?).getD "").toList)
              ∧ 2 ≤ t.points.length
            then (consecPairs t.points).countP (fun pq =>
              (segLine bbox c (((map_layer t.layer_id true).head?).getD "")
                (ee_to_mm t.stroke_width) pq).isSome)
            else 0) := by
  refine ⟨fun fp km => rfl, ?_, ?_⟩
  · intro bbox c layer_name w p q
    simp only [segLine]
    by_cases h : 150 < |ee_to_mm (p.1 - bbox.1) - c.1| ∨ 150 < |ee_to_mm (p.2 - bbox.2) - c.2|
    · rw [if_pos h]
      simp only [Option.isSome_none, Bool.false_eq_true, false_iff]
      intro hcon
      rcases h with h1 | h2
      · exact absurd hcon.1 (not_le.mpr h1)
      · exact absurd hcon.2 (not_le.mpr h2)
    · rw [if_neg h]
      push_neg at h
      simp only [Option.isSome_some, true_iff]
      exact h
  · intro bbox c t
    simp only [trackLines]
    by_cases h : (containsSeq (("Silk").toList) (((map_layer t.layer_id true).head?).getD "").toList
        || containsSeq (("Fab").toList) (((map_layer t.layer_id true).head?).getD "").toList
        || containsSeq (("Dwgs").toList) (((map_layer t.layer_id true).head?).getD "").toList)
        ∧ 2 ≤ t.points.length
    · rw [if_pos h, if_pos h]
      exact length_filterMap_eq_countP _ _
    · rw [if_neg h, if_neg h]
      rfl

/-- Track of the C2 counterexample: a graphic-layer segment whose start is
at the center and whose end is 2540 mm away. -/
def trackCE2 : EeFootprintTrack :=
  { stroke_width := 1, layer_id := 3, points := [(0, 0), (10000, 0)] }

/-- Footprint of the C2 counterexample. -/
def fpCE2 : EeFootprint :=
  { info := { name := "C2" }, bbox := (0, 0), pads := [], tracks := [trackCE2],
    texts := [], circles := [], arcs := [] }

/-- C2 counterexample: the segment whose END endpoint is 2540 mm from the
computed center (far beyond 150 mm) is still emitted, because only the
start endpoint is range-checked; the claim requires it to be excluded. -/
theorem C2_counterexample :
    (convert_footprint fpCE2 none).graphics
      = [{ layer := "F.SilkS", width := ee_to_mm 1,
           graphic_type := FpGraphicType.Line (0, 0) (2540, 0) }] ∧
    (150 : ℚ) < |(2540 : ℚ)| := by
  constructor
  · have hS : containsSeq (['S', 'i', 'l', 'k']) (['F', '.', 'S', 'i', 'l', 'k', 'S']) = true := by
      decide
    norm_num [convert_footprint, fpCE2, trackCE2, fpCenter, fpRawPadPos, fpRawTextPos,
      sumStep, trackLines, circleLines, markerGraphics, consecPairs, segLine,
      ee_to_mm, map_layer, convertPads, hS, List.filterMap_cons, List.filterMap_nil]
  · norm_num

/-- A face line containing a vertex reference that parses to 0 (the only
value whose 1-to-0-index subtraction underflows). -/
def badFaceLine (line : List Char) : Bool :=
  let parts := splitWhitespace line
  if parts.head? = some (['f']) ∧ 4 ≤ parts.length then
    (parts.drop 1).any (fun tok => (faceIndexOfTok tok).isNone)
  else false

/-- Whether some line of a mesh text is a face line with a reference that
parses to 0. -/
def hasZeroFaceRef (obj : String) : Bool :=
  (rustLines obj.toList).any badFaceLine

/-- The face reference collection succeeds when every token converts. -/
theorem collectIdx_isSome_of_forall (l : List (List Char))
    (h : ∀ x ∈ l, (faceIndexOfTok x).isSome) : (collectIdx l).isSome := by
  induction l with
  | nil => simp [collectIdx]
  | cons a as ih =>
    cases hfa : faceIndexOfTok a with
    | none =>
      have := h a (by simp)
      rw [hfa] at this
      cases this
    | some b =>
      have hrest : (collectIdx as).isSome := ih (fun x hx => h x (by simp [hx]))
      obtain ⟨bs, hbs⟩ := Option.isSome_iff_exists.mp hrest
      simp [collectIdx, hfa, hbs]

/-- One OBJ scan step cannot fail on a line without a zero face
reference. -/
theorem objLineStep_isSome (st : List (ℚ × ℚ × ℚ) × List (List Nat)) (line : List Char)
    (h : badFaceLine line = false) : (objLineStep (some st) line).isSome := by
  simp only [objLineStep]
  cases hp : (splitWhitespace line).head? with
  | none => simp
  | some p0 =>
    simp only []
    by_cases hv : p0 = ['v']
    · by_cases h4 : 4 ≤ (splitWhitespace line).length <;> simp [hv, h4]
    · by_cases hf : p0 = ['f']
      · by_cases h4 : 4 ≤ (splitWhitespace line).length
        · simp only [badFaceLine, hp, hf, h4, and_self, if_pos, true_and] at h
          have hall : ∀ tok ∈ (splitWhitespace line).drop 1, (faceIndexOfTok tok).isSome := by
            intro tok htok
            have := List.any_eq_false.mp h tok htok
            cases hft : faceIndexOfTok tok with
            | none => rw [hft] at this; simp at this
            | some v => simp
          have hm := collectIdx_isSome_of_forall _ hall
          obtain ⟨idxs, hidx⟩ := Option.isSome_iff_exists.mp hm
          simp [hv, hf, h4, List.drop_one] at hidx ⊢
          rw [hidx]
          simp
        · simp [hv, hf, h4]
      · simp [hv, hf]

/-- The OBJ scan fold succeeds from any state when no line has a zero face
reference. -/
theorem objFold_isSome (lines : List (List Char))
    (h : ∀ line ∈ lines, badFaceLine line = false) :
    ∀ st : List (ℚ × ℚ × ℚ) × List (List Nat),
      (lines.foldl objLineStep (some st)).isSome := by
  induction lines with
  | nil => intro st; simp
  | cons line rest ih =>
    intro st
    have hstep := objLineStep_isSome st line (h line (by simp))
    obtain ⟨st2, hst2⟩ := Option.isSome_iff_exists.mp hstep
    simp only [List.foldl_cons, hst2]
    exact ih (fun x hx => h x (by simp [hx])) st2

/-- The VRML boilerplate produced for a mesh with no vertices and no
faces: the point and coordIndex lists are present but empty, and all
brackets and braces are balanced. -/
def emptyWrl : String :=
  "#VRML V2.0 utf8\nShape \x7b\n  appearance Appearance \x7b\n    material Material \x7b diffuseColor 0.5 0.5 0.5 \x7d\n  \x7d\n  geometry IndexedFaceSet \x7b\n    coord Coordinate \x7b\n      point [\n      ]\n    \x7d\n    coordIndex [\n    ]\n  \x7d\n\x7d\n"

/-- Concrete model with an empty mesh text used by the C7 statements. -/
def modelW7 : Ee3dModel :=
  { name := "m", uuid := "u", raw_obj := some "", step := none }

/-- C7 amended: convert_3d_model never returns an error, and it cannot
panic provided no face vertex reference token parses to the value 0; a
malformed (unparsable) reference still defaults to 0-index 0 via the
default value 1; and the empty mesh text yields the exact boilerplate
output with empty point and coordIndex lists.  The token 0 itself escapes
this totality (see the counterexample). -/
theorem C7_no_panic_without_zero_ref :
    (∀ m : Ee3dModel, (∀ obj, m.raw_obj = some obj → hasZeroFaceRef obj = false) →
      (convert_3d_model m).isSome)
    ∧ (∀ tok : List Char,
        parseUsize (((splitOnChar '/' tok).head?).getD (['1'])) = none →
        faceIndexOfTok tok = some 0)
    ∧ convert_3d_model modelW7
        = some { name := "m", wrl_data := some emptyWrl, step_data := none,
                 offset := (0, 0, 0), scale := (1, 1, 1), rotate := (0, 0, 0) } := by
  refine ⟨?_, ?_, by rfl⟩
  · intro m h
    cases hobj : m.raw_obj with
    | none => simp [convert_3d_model, hobj]
    | some obj =>
      have hz := h obj hobj
      have hall : ∀ line ∈ rustLines obj.toList, badFaceLine line = false := by
        simp only [hasZeroFaceRef, List.any_eq_false] at hz
        intro line hline
        exact Bool.eq_false_iff.mpr (hz line hline)
      have hfold := objFold_isSome (rustLines obj.toList) hall ([], [])
      obtain ⟨st, hst⟩ := Option.isSome_iff_exists.mp hfold
      obtain ⟨vs, fs⟩ := st
      simp only [convert_3d_model, hobj]
      rw [hst]
      simp
  · intro tok htok
    simp [faceIndexOfTok, htok]

/-- Concrete model whose face line contains the reference token 0, used by
the C7 counterexample. -/
def modelCE7 : Ee3dModel :=
  { name := "m", uuid := "u", raw_obj := some "f 0 1 2", step := none }

/-- C7 counterexample: the face reference token 0 parses successfully to
0, and the 1-to-0-index usize subtraction underflows there (a panic under
overflow checks), so convert_3d_model is not total on all mesh texts: the
claimed totality of the subtraction for the token 0 fails. -/
theorem C7_counterexample :
    convert_3d_model modelCE7 = none ∧
    parseUsize (['0']) = some 0 ∧ faceIndexOfTok (['0']) = none := by
  refine ⟨by decide, by decide, by decide⟩

/-- Witness for the amended C7: the empty mesh converts successfully, and
a non-numeric reference token defaults to index 0. -/
theorem C7_no_panic_without_zero_ref_witness :
    (convert_3d_model modelW7).isSome ∧ faceIndexOfTok (['a', 'b', 'c']) = some 0 :=
  ⟨C7_no_panic_without_zero_ref.1 modelW7
     (fun obj hobj => by cases hobj; decide),
   C7_no_panic_without_zero_ref.2.1 (['a', 'b', 'c']) (by decide)⟩

/-- The pad decoded from one shape entry of the footprint payload, none
for entries that are not PAD-tagged strings or are too short. -/
def padOfVal (v : Json) : Option EeFootprintPad :=
  let fields := parse_raw_line (((v.as_str).getD "").toList)
  if fields.head? = some (("PAD").toList) then padOfFields fields else none

/-- One shape-loop step appends exactly the pad decoded from the entry to
the pad accumulator. -/
theorem fpShapeStep_pads (acc : FpShapeAcc) (v : Json) :
    (fpShapeStep acc v).pads = acc.pads ++ (padOfVal v).toList := by
  simp only [fpShapeStep, padOfVal]
  generalize parse_raw_line (((v.as_str).getD "").toList) = fields
  cases hh : fields.head? with
  | none => simp [hh]
  | some f0 =>
    by_cases hpad : f0 = (['P', 'A', 'D'])
    · cases hpf : padOfFields fields <;> simp [hh, hpad, hpf]
    · by_cases h2 : f0 = (['T', 'R', 'A', 'C', 'K'])
      · cases trackOfFields fields <;> simp [hh, hpad, h2]
      · by_cases h3 : f0 = (['T', 'E', 'X', 'T'])
        · cases textOfFields fields <;> simp [hh, hpad, h2, h3]
        · by_cases h4 : f0 = (['C', 'I', 'R', 'C', 'L', 'E'])
          · cases circleOfFields fields <;> simp [hh, hpad, h2, h3, h4]
          · by_cases h5 : f0 = (['A', 'R', 'C'])
            · cases arcOfFields fields <;> simp [hh, hpad, h2, h3, h4, h5]
            · simp [hh, hpad, h2, h3, h4, h5]

/-- The shape fold accumulates exactly the pads decoded per entry, in
order. -/
theorem foldl_fpShapeStep_pads (shapes : List Json) :
    ∀ acc : FpShapeAcc,
      (shapes.foldl fpShapeStep acc).pads = acc.pads ++ shapes.filterMap padOfVal := by
  induction shapes with
  | nil => intro acc; simp
  | cons v vs ih =>
    intro acc
    simp only [List.foldl_cons, List.filterMap_cons]
    rw [ih, fpShapeStep_pads]
    cases hv : padOfVal v <;> simp [hv]

/-- With the shape array present, import_footprint succeeds and its pads
are the per-entry decodes of the shape entries. -/
theorem import_footprint_pads (d : Json) (shapes : List Json)
    (h : (((d.index ("packageDetail")).index ("dataStr")).index ("shape")).as_array
        = some shapes) :
    ∃ fp, import_footprint d = Except.ok fp ∧ fp.pads = shapes.filterMap padOfVal := by
  simp only [import_footprint, h]
  refine ⟨_, rfl, ?_⟩
  show (shapes.foldl fpShapeStep
      { pads := [], tracks := [], texts := [], circles := [], arcs := [] }).pads
    = shapes.filterMap padOfVal
  rw [foldl_fpShapeStep_pads]
  rfl

/-- Characterization of the decoded hole length of a PAD line: the
field-13 value (parsed, defaulting to 0, taken as 0 when the field is
absent) wins whenever it is nonzero; otherwise field 12 is consulted and
used exactly when it parses to a positive value. -/
theorem padOfFields_hole_length (fields : List (List Char)) (hlen : 11 < fields.length) :
    (padOfFields fields).map (fun p => p.hole_length)
      = some
        (if (if 13 < fields.length then (parseF32 (fields.getD 13 [])).getD 0 else 0) = 0 then
          (if 0 < (if 12 < fields.length then (parseF32 (fields.getD 12 [])).getD 0 else 0) then
            (if 12 < fields.length then (parseF32 (fields.getD 12 [])).getD 0 else 0)
           else 0)
         else (if 13 < fields.length then (parseF32 (fields.getD 13 [])).getD 0 else 0)) := by
  simp only [padOfFields, if_pos hlen, Option.map_some]
  set f13 : ℚ := (if 13 < fields.length then (parseF32 (fields.getD 13 [])).getD 0 else 0)
    with hf13
  set v12 : ℚ := (parseF32 (fields.getD 12 [])).getD 0 with hv12
  by_cases hz : f13 = 0
  · by_cases h12 : 12 < fields.length
    · by_cases hv : 0 < v12 <;> simp [hz, h12, hv]
    · simp [hz, h12]
  · simp [hz]

/-- C4 amended: the hole length is taken from field 13 whenever that field
is present AND its parsed-or-zero value is nonzero; field 12 is consulted
not only when field 13 is absent but also when the field-13 value decodes
to 0 (unparsable or literally zero), and is then used exactly when it
parses as a positive length.  Pads are decoded from PAD-tagged shape
entries in order. -/
theorem C4_hole_length_field13_first :
    (∀ fields : List (List Char), 11 < fields.length →
      (padOfFields fields).map (fun p => p.hole_length)
        = some
          (if (if 13 < fields.length then (parseF32 (fields.getD 13 [])).getD 0 else 0) = 0 then
            (if 0 < (if 12 < fields.length then (parseF32 (fields.getD 12 [])).getD 0 else 0) then
              (if 12 < fields.length then (parseF32 (fields.getD 12 [])).getD 0 else 0)
             else 0)
           else (if 13 < fields.length then (parseF32 (fields.getD 13 [])).getD 0 else 0)))
    ∧ (∀ (d : Json) (shapes : List Json),
        (((d.index ("packageDetail")).index ("dataStr")).index ("shape")).as_array
          = some shapes →
        ∃ fp, import_footprint d = Except.ok fp ∧ fp.pads = shapes.filterMap padOfVal) :=
  ⟨padOfFields_hole_length, import_footprint_pads⟩

/-- PAD line of the C4 counterexample: field 13 is the unparsable
identifier x and field 12 is the number 5. -/
def ceLine4 : String := "PAD~ELLIPSE~0~0~1~1~1~~1~1~~0~5~x"

/-- Payload carrying the C4 counterexample PAD line. -/
def jsonCE4 : Json :=
  Json.obj [("packageDetail", Json.obj [("dataStr", Json.obj [("shape",
    Json.arr [Json.str ceLine4])])])]

/-- The tilde fields of the C4 counterexample line. -/
def ceFields4 : List (List Char) := parse_raw_line (ceLine4.toList)

/-- C4 counterexample: field 13 is present (the line has 14 fields) but
unparsable, so the claim requires hole-length 0 taken from field 13
without consulting field 12; the code nevertheless consults field 12 and
decodes hole-length 5. -/
theorem C4_counterexample :
    (∃ fp, import_footprint jsonCE4 = Except.ok fp ∧
        fp.pads.map (fun p => p.hole_length) = [5]) ∧
    (5 : ℚ) ≠ 0 ∧ 13 < ceFields4.length ∧ parseF32 (ceFields4.getD 13 []) = none := by
  have hxv : parseF32 (['x']) = none := by
    have hp : parseF32Parts (['x']) = none := by decide
    rw [parseF32, hp]
    rfl
  have h5v : parseF32 (['5']) = some 5 := by
    have hp : parseF32Parts (['5']) = some ⟨false, ['5'], [], false, []⟩ := by decide
    have hd : digitsToNat (['5']) = 5 := by decide
    have hd0 : digitsToNat ([] : List Char) = 0 := by decide
    rw [parseF32, hp]
    norm_num [ratOfF32Parts, hd, hd0]
  have hgd13 : ceFields4.getD 13 [] = (['x']) := by decide
  have hgd12 : ceFields4.getD 12 [] = (['5']) := by decide
  have h13l : 13 < ceFields4.length := by decide
  have h12l : 12 < ceFields4.length := by decide
  have harr : (((jsonCE4.index ("packageDetail")).index ("dataStr")).index ("shape")).as_array
      = some ([Json.str ceLine4]) := rfl
  obtain ⟨fp, hok, hpads⟩ := import_footprint_pads jsonCE4 _ harr
  have hval : (padOfFields ceFields4).map (fun p => p.hole_length) = some 5 := by
    rw [padOfFields_hole_length ceFields4 (by omega), if_pos h13l, hgd13, hxv]
    rw [if_pos h12l, hgd12, h5v]
    norm_num
  refine ⟨⟨fp, hok, ?_⟩, by norm_num, h13l, by rw [hgd13]; exact hxv⟩
  rw [hpads]
  have hpv : padOfVal (Json.str ceLine4) = padOfFields ceFields4 := by rfl
  cases hps : padOfFields ceFields4 with
  | none =>
    rw [hps] at hval
    cases hval
  | some p =>
    rw [hps] at hval
    simp at hval
    simp [List.filterMap_cons, hpv, hps, hval]

/-- Footprint payload with an empty shape array, used by the C4 witness. -/
def jsonW4 : Json :=
  Json.obj [("packageDetail", Json.obj [("dataStr", Json.obj [("shape", Json.arr [])])])]

/-- Witness for the amended C4 at the concrete 14-field PAD line and the
empty-shape payload. -/
theorem C4_hole_length_field13_first_witness :
    11 < ceFields4.length ∧
    ((padOfFields ceFields4).map (fun p => p.hole_length)
      = some
        (if (if 13 < ceFields4.length then (parseF32 (ceFields4.getD 13 [])).getD 0 else 0)
            = 0 then
          (if 0 < (if 12 < ceFields4.length then (parseF32 (ceFields4.getD 12 [])).getD 0
              else 0) then
            (if 12 < ceFields4.length then (parseF32 (ceFields4.getD 12 [])).getD 0 else 0)
           else 0)
         else (if 13 < ceFields4.length then (parseF32 (ceFields4.getD 13 [])).getD 0
           else 0))) ∧
    (∃ fp, import_footprint jsonW4 = Except.ok fp ∧
      fp.pads = ([] : List Json).filterMap padOfVal) :=
  ⟨by decide, C4_hole_length_field13_first.1 ceFields4 (by decide),
   C4_hole_length_field13_first.2 jsonW4 [] rfl⟩

/-- The pin decoded from one shape entry of the symbol payload, none for
entries that are not caret-delimited P lines. -/
def pinOfVal (v : Json) : Option EeSymbolPin :=
  let cs := ((v.as_str).getD "").toList
  if cs.head? = some 'P' ∧ containsSeq ['^', '^'] cs then pinOfShape cs else none

/-- One symbol shape-loop step appends exactly the pin decoded from the
entry to the pin accumulator. -/
theorem symShapeStep_pins (acc : List EeSymbolPin × List EeSymbolRectangle) (v : Json) :
    (symShapeStep acc v).1 = acc.1 ++ (pinOfVal v).toList := by
  simp only [symShapeStep, pinOfVal]
  by_cases hc : (((v.as_str).getD "").toList).head? = some 'P'
      ∧ containsSeq ['^', '^'] (((v.as_str).getD "").toList)
  · simp only [hc, if_true]
    cases pinOfShape (((v.as_str).getD "").toList) <;> simp
  · simp only [hc, if_false]
    cases rectOfShape (((v.as_str).getD "").toList) <;> simp

/-- The symbol shape fold accumulates exactly the pins decoded per entry,
in order. -/
theorem foldl_symShapeStep_pins (shapes : List Json) :
    ∀ acc : List EeSymbolPin × List EeSymbolRectangle,
      (shapes.foldl symShapeStep acc).1 = acc.1 ++ shapes.filterMap pinOfVal := by
  induction shapes with
  | nil => intro acc; simp
  | cons v vs ih =>
    intro acc
    simp only [List.foldl_cons, List.filterMap_cons]
    rw [ih, symShapeStep_pins]
    cases hv : pinOfVal v <;> simp [hv]

/-- With the shape array present, import_symbol succeeds and its pins are
the per-entry decodes of the shape entries. -/
theorem import_symbol_pins (d : Json) (shapes : List Json)
    (h : ((d.index ("dataStr")).index ("shape")).as_array = some shapes) :
    ∃ s, import_symbol d = Except.ok s ∧ s.pins = shapes.filterMap pinOfVal := by
  simp only [import_symbol, h]
  refine ⟨_, rfl, ?_⟩
  show (shapes.foldl symShapeStep ([], [])).1 = shapes.filterMap pinOfVal
  rw [foldl_symShapeStep_pins]
  rfl

/-- The last whitespace token of the path group of a pin line (the token
whose parse failure the pin-length default covers), defaulting to the
token 0 when the path has no tokens. -/
def pinPathLastTok (cs : List Char) : List Char :=
  ((splitWhitespace ((parse_raw_line ((splitOnPair '^' '^' cs).getD 2 [])).getD 1
    [])).getLast?).getD (['0'])

/-- The decoded pin length is the parsed last path token, with default
10.0 (not 0.0) when that token does not parse. -/
theorem pinOfShape_pin_length (cs : List Char) (p : EeSymbolPin)
    (hp : pinOfShape cs = some p) :
    p.pin_length = (parseF32 (pinPathLastTok cs)).getD 10 := by
  simp only [pinOfShape] at hp
  by_cases h4 : 4 ≤ (splitOnPair '^' '^' cs).length
  · rw [if_pos h4] at hp
    by_cases hg : 7 < (parse_raw_line ((splitOnPair '^' '^' cs).getD 0 [])).length
        ∧ 5 < (parse_raw_line ((splitOnPair '^' '^' cs).getD 3 [])).length
        ∧ 1 < (parse_raw_line ((splitOnPair '^' '^' cs).getD 2 [])).length
    · rw [if_pos hg] at hp
      cases hp
      rfl
    · rw [if_neg hg] at hp
      cases hp
  · rw [if_neg h4] at hp
    cases hp

/-- C6 amended: numeric sub-fields that fail to parse default to 0.0 / 0 —
pad coordinates, rotations and layer ids, and pin coordinates and
rotations all default to zero — with one exception: the symbol pin length
defaults to 10.0, not 0.0, when the last path token does not parse.  Pins
are decoded from the shape entries in order. -/
theorem C6_parse_failure_defaults :
    (∀ (cs : List Char) (p : EeSymbolPin), pinOfShape cs = some p →
      p.pin_length = (parseF32 (pinPathLastTok cs)).getD 10)
    ∧ (∀ (fields : List (List Char)) (p : EeFootprintPad), padOfFields fields = some p →
        (parseF32 (fields.getD 2 []) = none → p.center_x = 0) ∧
        (parseF32 (fields.getD 11 []) = none → p.rotation = 0) ∧
        (parseI32 (fields.getD 6 []) = none → p.layer_id = 0))
    ∧ (∀ (cs : List Char) (p : EeSymbolPin), pinOfShape cs = some p →
        (parseF32 ((parse_raw_line ((splitOnPair '^' '^' cs).getD 0 [])).getD 4 []) = none →
          p.pos_x = 0) ∧
        (parseI32 ((parse_raw_line ((splitOnPair '^' '^' cs).getD 0 [])).getD 6 []) = none →
          p.rotation = 0))
    ∧ (∀ (d : Json) (shapes : List Json),
        ((d.index ("dataStr")).index ("shape")).as_array = some shapes →
        ∃ s, import_symbol d = Except.ok s ∧ s.pins = shapes.filterMap pinOfVal) := by
  refine ⟨pinOfShape_pin_length, ?_, ?_, import_symbol_pins⟩
  · intro fields p hp
    simp only [padOfFields] at hp
    by_cases hlen : 11 < fields.length
    · rw [if_pos hlen] at hp
      cases hp
      refine ⟨?_, ?_, ?_⟩
      · intro h
        show (parseF32 (fields.getD 2 [])).getD 0 = 0
        rw [h]
        rfl
      · intro h
        show (parseF32 (fields.getD 11 [])).getD 0 = 0
        rw [h]
        rfl
      · intro h
        show (parseI32 (fields.getD 6 [])).getD 0 = 0
        rw [h]
        rfl
    · rw [if_neg hlen] at hp
      cases hp
  · intro cs p hp
    simp only [pinOfShape] at hp
    by_cases h4 : 4 ≤ (splitOnPair '^' '^' cs).length
    · rw [if_pos h4] at hp
      by_cases hg : 7 < (parse_raw_line ((splitOnPair '^' '^' cs).getD 0 [])).length
          ∧ 5 < (parse_raw_line ((splitOnPair '^' '^' cs).getD 3 [])).length
          ∧ 1 < (parse_raw_line ((splitOnPair '^' '^' cs).getD 2 [])).length
      · rw [if_pos hg] at hp
        cases hp
        constructor
        · intro h
          show (parseF32 ((parse_raw_line ((splitOnPair '^' '^' cs).getD 0 [])).getD 4
            [])).getD 0 = 0
          rw [h]
          rfl
        · intro h
          show (parseI32 ((parse_raw_line ((splitOnPair '^' '^' cs).getD 0 [])).getD 6
            [])).getD 0 = 0
          rw [h]
          rfl
      · rw [if_neg hg] at hp
        cases hp
    · rw [if_neg h4] at hp
      cases hp

/-- Pin line of the C6 counterexample: the path group ends in the
unparsable token abc. -/
def ceLine6 : String := "P~show~1~1~10~20~0~a^^x^^x~M 0 0 h abc^^x~0~0~0~NAME~0"

/-- Character list of the C6 pin line. -/
def ceChars6 : List Char := ceLine6.toList

/-- Symbol payload carrying the C6 pin line. -/
def jsonCE6 : Json :=
  Json.obj [("dataStr", Json.obj [("shape", Json.arr [Json.str ceLine6])])]

/-- C6 counterexample: the pin whose last path token abc does not parse
gets pin-length 10.0, not the 0.0 the claim requires. -/
theorem C6_counterexample :
    (∃ sym, import_symbol jsonCE6 = Except.ok sym ∧
        sym.pins.map (fun p => p.pin_length) = [10]) ∧
    ((10 : ℚ) ≠ 0) ∧ parseF32 (pinPathLastTok ceChars6) = none := by
  have hlast : pinPathLastTok ceChars6 = (['a', 'b', 'c']) := by decide
  have habc : parseF32 (['a', 'b', 'c']) = none := by
    have hp : parseF32Parts (['a', 'b', 'c']) = none := by decide
    rw [parseF32, hp]
    rfl
  have harr : ((jsonCE6.index ("dataStr")).index ("shape")).as_array
      = some ([Json.str ceLine6]) := rfl
  obtain ⟨sym, hok, hpins⟩ := import_symbol_pins jsonCE6 _ harr
  have hsome : (pinOfShape ceChars6).isSome := by decide
  obtain ⟨p, hp⟩ := Option.isSome_iff_exists.mp hsome
  have hlen := pinOfShape_pin_length ceChars6 p hp
  rw [hlast, habc] at hlen
  simp only [Option.getD_none] at hlen
  have hpv : pinOfVal (Json.str ceLine6) = pinOfShape ceChars6 := by rfl
  refine ⟨⟨sym, hok, ?_⟩, by norm_num, by rw [hlast]; exact habc⟩
  rw [hpins]
  simp [List.filterMap_cons, hpv, hp, hlen]

/-- Symbol payload with an empty shape array, used by the C6 witness. -/
def jsonW6 : Json := Json.obj [("dataStr", Json.obj [("shape", Json.arr [])])]

/-- Witness for the amended C6 at the concrete pin line and PAD fields. -/
theorem C6_parse_failure_defaults_witness :
    (∃ p : EeSymbolPin, pinOfShape ceChars6 = some p ∧
      p.pin_length = (parseF32 (pinPathLastTok ceChars6)).getD 10) ∧
    (∃ p : EeFootprintPad, padOfFields ceFields4 = some p ∧
      ((parseF32 (ceFields4.getD 2 []) = none → p.center_x = 0) ∧
       (parseF32 (ceFields4.getD 11 []) = none → p.rotation = 0) ∧
       (parseI32 (ceFields4.getD 6 []) = none → p.layer_id = 0))) ∧
    (∃ s, import_symbol jsonW6 = Except.ok s ∧
      s.pins = ([] : List Json).filterMap pinOfVal) := by
  refine ⟨?_, ?_, C6_parse_failure_defaults.2.2.2 jsonW6 [] rfl⟩
  · obtain ⟨p, hp⟩ := Option.isSome_iff_exists.mp
      (by decide : (pinOfShape ceChars6).isSome)
    exact ⟨p, hp, C6_parse_failure_defaults.1 ceChars6 p hp⟩
  · obtain ⟨p, hp⟩ := Option.isSome_iff_exists.mp
      (by decide : (padOfFields ceFields4).isSome)
    exact ⟨p, hp, C6_parse_failure_defaults.2.1 ceFields4 p hp⟩

/-- The rational value of the string 0 used as the bounding-box default. -/
theorem parseF32_zero_string : parseF32 ((("0")).toList) = some 0 := by
  have hp : parseF32Parts ((("0")).toList) = some ⟨false, ['0'], [], false, []⟩ := by decide
  have hd : digitsToNat (['0']) = 0 := by decide
  have hd0 : digitsToNat ([] : List Char) = 0 := by decide
  rw [parseF32, hp]
  norm_num [ratOfF32Parts, hd, hd0]

/-- C5: import_symbol and import_footprint fail exactly when the shape
collection of the payload is absent or not an array, and then with the
MissingData error; in particular an absent bounding-box origin never fails
the decode and defaults to (0,0). -/
theorem C5_import_error_iff_missing_shape :
    (∀ d : Json, (∃ s, import_symbol d = Except.ok s)
      ↔ ((d.index ("dataStr")).index ("shape")).as_array ≠ none)
    ∧ (∀ d : Json, ((d.index ("dataStr")).index ("shape")).as_array = none →
        import_symbol d
          = Except.error (ConvError.MissingData ("Symbol shape data is missing")))
    ∧ (∀ d : Json, (∃ fp, import_footprint d = Except.ok fp)
      ↔ (((d.index ("packageDetail")).index ("dataStr")).index ("shape")).as_array ≠ none)
    ∧ (∀ d : Json,
        (((d.index ("packageDetail")).index ("dataStr")).index ("shape")).as_array = none →
        import_footprint d
          = Except.error (ConvError.MissingData ("Footprint shape data is missing")))
    ∧ (∀ d : Json, (((d.index ("dataStr")).index ("head")).index ("x")).as_str = none →
        (((d.index ("dataStr")).index ("head")).index ("y")).as_str = none →
        ∀ s, import_symbol d = Except.ok s → s.bbox = (0, 0)) := by
  refine ⟨?_, ?_, ?_, ?_, ?_⟩
  · intro d
    cases harr : ((d.index ("dataStr")).index ("shape")).as_array with
    | none => simp [import_symbol, harr]
    | some shapes => simp [import_symbol, harr]
  · intro d harr
    simp [import_symbol, harr]
  · intro d
    cases harr : (((d.index ("packageDetail")).index ("dataStr")).index ("shape")).as_array with
    | none => simp [import_footprint, harr]
    | some shapes => simp [import_footprint, harr]
  · intro d harr
    simp [import_footprint, harr]
  · intro d hx hy s hok
    cases harr : ((d.index ("dataStr")).index ("shape")).as_array with
    | none => simp [import_symbol, harr] at hok
    | some shapes =>
      simp only [import_symbol, harr] at hok
      cases hok
      show ((parseF32 ((((((d.index ("dataStr")).index ("head")).index ("x")).as_str).getD
          ("0")).toList)).getD 0,
        (parseF32 ((((((d.index ("dataStr")).index ("head")).index ("y")).as_str).getD
          ("0")).toList)).getD 0) = ((0 : ℚ), (0 : ℚ))
      rw [hx, hy]
      simp only [Option.getD_none]
      rw [parseF32_zero_string]
      rfl

/-- Witness for C5: the null payload fails both decodes with the
MissingData error, and a payload with a shape array but no head
coordinates decodes with bounding box (0,0). -/
theorem C5_import_error_iff_missing_shape_witness :
    import_symbol Json.null
      = Except.error (ConvError.MissingData ("Symbol shape data is missing")) ∧
    import_footprint Json.null
      = Except.error (ConvError.MissingData ("Footprint shape data is missing")) ∧
    (∃ s, import_symbol jsonW6 = Except.ok s ∧ s.bbox = (0, 0)) := by
  refine ⟨C5_import_error_iff_missing_shape.2.1 Json.null rfl,
    C5_import_error_iff_missing_shape.2.2.2.1 Json.null rfl, ?_⟩
  obtain ⟨s, hok, hpins⟩ := import_symbol_pins jsonW6 [] rfl
  exact ⟨s, hok, C5_import_error_iff_missing_shape.2.2.2.2 jsonW6 rfl rfl s hok⟩

/-- The first string shape entry tagged SVGNODE, which alone decides the
outcome of the 3D-model scan. -/
def firstSvgVal : List Json → Option String
  | [] => none
  | v :: rest =>
    match v.as_str with
    | some s =>
      if (("SVGNODE~").toList).isPrefixOf s.toList then some s else firstSvgVal rest
    | none => firstSvgVal rest

/-- The tilde remainder of an SVGNODE line, the text handed to the JSON
deserializer. -/
def svgJsonPart (s : String) : String :=
  ((splitOnceChar '~' s.toList).map (fun pr => String.mk pr.2)).getD ""

/-- Splitting at the first tilde of a line that starts with the SVGNODE
tag yields the tag and the remainder. -/
theorem splitOnce_svgnode (t : List Char) :
    splitOnceChar '~' ((("SVGNODE~").toList) ++ t) = some ((("SVGNODE")).toList, t) := by
  simp +decide [splitOnceChar]

/-- The scan loop propagates the deserialization failure of the first
SVGNODE entry as a JSON error. -/
theorem import3dScan_error (shapes : List Json) (s e : String)
    (hfirst : firstSvgVal shapes = some s)
    (herr : svgNodeFromStr (svgJsonPart s) = Except.error e) :
    import3dScan shapes = Except.error (ConvError.JsonError e) := by
  induction shapes with
  | nil => cases hfirst
  | cons v rest ih =>
    cases hstr : v.as_str with
    | none =>
      simp only [firstSvgVal, hstr] at hfirst
      simp only [import3dScan, hstr]
      exact ih hfirst
    | some sv =>
      by_cases hpre : (("SVGNODE~").toList).isPrefixOf sv.toList = true
      · simp only [firstSvgVal, hstr, hpre, if_true, Option.some.injEq] at hfirst
        subst hfirst
        obtain ⟨t, ht⟩ := List.isPrefixOf_iff_prefix.mp hpre
        have ht2 : (("SVGNODE~").toList) ++ t = sv.data := ht
        have hsplit : splitOnceChar '~' sv.data = some ((("SVGNODE")).toList, t) := by
          rw [← ht2]
          exact splitOnce_svgnode t
        have hpart : svgJsonPart sv = String.mk t := by
          simp [svgJsonPart, hsplit]
        rw [hpart] at herr
        simp [import3dScan, hstr, hpre, hsplit, herr]
        intro hcon
        exact absurd (List.isPrefixOf_iff_prefix.mp hpre) hcon
      · simp only [firstSvgVal, hstr, hpre, if_false, Bool.false_eq_true] at hfirst
        simp only [import3dScan, hstr, hpre, Bool.false_eq_true, if_false]
        exact ih hfirst

/-- C10: when the first SVGNODE-tagged shape line has a remainder that
does not deserialize as an SvgNode (and hence no earlier SVGNODE line
parsed successfully), import_3d_model_info returns the JSON error rather
than Ok(None): the field-level tolerance does not extend to this scan. -/
theorem C10_svgnode_parse_error_propagates (d : Json) (shapes : List Json) (s e : String)
    (harr : (((d.index ("packageDetail")).index ("dataStr")).index ("shape")).as_array
      = some shapes)
    (hfirst : firstSvgVal shapes = some s)
    (herr : svgNodeFromStr (svgJsonPart s) = Except.error e) :
    import_3d_model_info d = Except.error (ConvError.JsonError e) := by
  simp only [import_3d_model_info, harr]
  exact import3dScan_error shapes s e hfirst herr

/-- Payload whose only shape entry is an SVGNODE line with an invalid
remainder, used by the C10 witness. -/
def jsonW10 : Json :=
  Json.obj [("packageDetail", Json.obj [("dataStr", Json.obj [("shape",
    Json.arr [Json.str "SVGNODE~notjson"])])])]

/-- Witness for C10: the concrete SVGNODE line with remainder notjson
makes import_3d_model_info fail with the propagated JSON error. -/
theorem C10_svgnode_parse_error_propagates_witness :
    (((jsonW10.index ("packageDetail")).index ("dataStr")).index ("shape")).as_array
      = some ([Json.str "SVGNODE~notjson"]) ∧
    firstSvgVal ([Json.str "SVGNODE~notjson"]) = some "SVGNODE~notjson" ∧
    svgNodeFromStr (svgJsonPart "SVGNODE~notjson") = Except.error "invalid JSON" ∧
    import_3d_model_info jsonW10 = Except.error (ConvError.JsonError "invalid JSON") :=
  ⟨rfl, by rfl, by rfl,
   C10_svgnode_parse_error_propagates jsonW10 ([Json.str "SVGNODE~notjson"])
     ("SVGNODE~notjson") ("invalid JSON") rfl (by rfl) (by rfl)⟩
